import Mathlib

/-!
# gl_photo_editor: the bootstrap, render loop and teardown of `main.cpp`

`main.cpp` is one straight-line sequence of calls into GLFW, glad/OpenGL and
Dear ImGui, with five checked failure exits and one loop.  The embedding models
a run of `main` as the list of external calls it makes (its trace) together
with its return code.  Everything the outside world decides (return values of
the checked calls, the video mode, what each frame reports) is a field of
`Env`; the program text decides everything else.

The model covers runs in which `glfwGetVideoMode` reports a video mode: the
source dereferences the returned pointer without a check.
-/

namespace GlPhotoEditor

/-! ## Constants and handles -/

/-- OpenGL enumerants that `main.cpp` passes as arguments, by name. -/
inductive GLenum
  | GL_VERTEX_SHADER
  | GL_FRAGMENT_SHADER
  | GL_COMPILE_STATUS
  | GL_LINK_STATUS
  | GL_ARRAY_BUFFER
  | GL_STATIC_DRAW
  | GL_FLOAT
  | GL_TRIANGLES
  | GL_COLOR_BUFFER_BIT
  | GL_TRUE
  deriving DecidableEq

/-- GLFW enumerants that `main.cpp` passes as arguments, by name. -/
inductive GLFWenum
  | GLFW_CONTEXT_VERSION_MAJOR
  | GLFW_CONTEXT_VERSION_MINOR
  | GLFW_OPENGL_PROFILE
  | GLFW_OPENGL_CORE_PROFILE
  | GLFW_OPENGL_FORWARD_COMPAT
  | GLFW_ARROW_CURSOR
  | GLFW_KEY_Q
  deriving DecidableEq

/-- Value given to a window hint: a literal integer or a named enumerant. -/
inductive HintValue
  | lit (n : Int)
  | glfw (e : GLFWenum)
  | gl (e : GLenum)
  deriving DecidableEq

/-- Modelled from the spec: the header constant `GL_FALSE` (the OpenGL headers
are not part of the sources); the status a failed compile or link reports. -/
def GL_FALSE : Int := 0

/-- Modelled from the spec: the header constant `GLFW_PRESS` (the GLFW headers
are not part of the sources); the key state `glfwGetKey` reports for a key
that is held down. -/
def GLFW_PRESS : Int := 1

/-- Modelled from the spec: `sizeof(float)` in bytes ("4-byte floats"). -/
def sizeofFloat : Nat := 4

/-- The two shader source literals of `main.cpp`, by name. -/
inductive ShaderSource
  | vertexShaderSource
  | fragmentShaderSource
  deriving DecidableEq

/-- The GPU object handles `main` holds, named after the variables that hold
them.  The numeric values are chosen by OpenGL and never inspected. -/
inductive Handle
  | vertexShader
  | fragmentShader
  | shaderProgram
  | VAO
  | VBO
  deriving DecidableEq

/-- The vertex data `triangleVertices`.  Every literal is exactly representable
as a binary float, so the rational value is the stored value. -/
def triangleVertices : List Rat :=
  [-1/2, -1/2, 0,
    1/2, -1/2, 0,
    0,    1/2, 0]

/-! ## Calls -/

/-- One external call (or console write) made by `main`, with the arguments
the source passes.  The single window is implicit. -/
inductive Call
  | glfwInit
  | log (msg : String)
  | glfwWindowHint (hint : GLFWenum) (value : HintValue)
  | glfwGetPrimaryMonitor
  | glfwGetVideoMode
  | glfwCreateWindow (width height : Int) (title : String)
  | glfwTerminate
  | glfwCreateStandardCursor (shape : GLFWenum)
  | glfwSetCursor
  | glfwSetWindowPos (x y : Int)
  | glfwSetWindowAspectRatio (numer denom : Int)
  | glfwMakeContextCurrent
  | gladLoadGL
  | IMGUI_CHECKVERSION
  | ImGui_CreateContext
  | ImGui_GetIO_ConfigFlags_NavEnableKeyboard
  | ImGui_ImplGlfw_InitForOpenGL (installCallbacks : Bool)
  | ImGui_ImplOpenGL3_Init
  | glCreateShader (kind : GLenum) (result : Handle)
  | glShaderSource (shader : Handle) (count : Nat) (source : ShaderSource)
  | glCompileShader (shader : Handle)
  | glGetShaderiv (shader : Handle) (pname : GLenum) (result : Int)
  | glGetShaderInfoLog (shader : Handle) (bufSize : Nat)
  | glCreateProgram (result : Handle)
  | glAttachShader (program shader : Handle)
  | glLinkProgram (program : Handle)
  | glGetProgramiv (program : Handle) (pname : GLenum) (result : Int)
  | glGetProgramInfoLog (program : Handle) (bufSize : Nat)
  | glDeleteShader (shader : Handle)
  | glGenVertexArrays (n : Nat) (result : Handle)
  | glGenBuffers (n : Nat) (result : Handle)
  | glBindVertexArray (array : Handle)
  | glBindBuffer (target : GLenum) (buffer : Handle)
  | glBufferData (target : GLenum) (size : Nat) (data : List Rat) (usage : GLenum)
  | glVertexAttribPointer (index size : Nat) (type : GLenum) (normalized : Bool)
      (stride offset : Nat)
  | glEnableVertexAttribArray (index : Nat)
  | glClearColor (r g b a : Rat)
  | glfwWindowShouldClose (result : Bool)
  | glfwGetFramebufferSize (width height : Int)
  | glViewport (x y width height : Int)
  | glClear (mask : GLenum)
  | glUseProgram (program : Handle)
  | glDrawArrays (mode : GLenum) (first count : Nat)
  | ImGui_ImplOpenGL3_NewFrame
  | ImGui_ImplGlfw_NewFrame
  | ImGui_NewFrame
  | ImGui_ShowDemoWindow
  | ImGui_Render
  | ImGui_GetDrawData
  | ImGui_ImplOpenGL3_RenderDrawData
  | glfwSwapBuffers
  | glfwPollEvents
  | glfwGetKey (key : GLFWenum) (result : Int)
  | glfwSetWindowShouldClose (value : Bool)
  | ImGui_ImplOpenGL3_Shutdown
  | ImGui_ImplGlfw_Shutdown
  | ImGui_DestroyContext
  | glDeleteProgram (program : Handle)
  | glDeleteBuffers (n : Nat) (buffer : Handle)
  | glDeleteVertexArrays (n : Nat) (array : Handle)

/-- The name of the function a call invokes. -/
inductive Fn
  | glfwInit
  | log
  | glfwWindowHint
  | glfwGetPrimaryMonitor
  | glfwGetVideoMode
  | glfwCreateWindow
  | glfwTerminate
  | glfwCreateStandardCursor
  | glfwSetCursor
  | glfwSetWindowPos
  | glfwSetWindowAspectRatio
  | glfwMakeContextCurrent
  | gladLoadGL
  | IMGUI_CHECKVERSION
  | ImGui_CreateContext
  | ImGui_GetIO_ConfigFlags_NavEnableKeyboard
  | ImGui_ImplGlfw_InitForOpenGL
  | ImGui_ImplOpenGL3_Init
  | glCreateShader
  | glShaderSource
  | glCompileShader
  | glGetShaderiv
  | glGetShaderInfoLog
  | glCreateProgram
  | glAttachShader
  | glLinkProgram
  | glGetProgramiv
  | glGetProgramInfoLog
  | glDeleteShader
  | glGenVertexArrays
  | glGenBuffers
  | glBindVertexArray
  | glBindBuffer
  | glBufferData
  | glVertexAttribPointer
  | glEnableVertexAttribArray
  | glClearColor
  | glfwWindowShouldClose
  | glfwGetFramebufferSize
  | glViewport
  | glClear
  | glUseProgram
  | glDrawArrays
  | ImGui_ImplOpenGL3_NewFrame
  | ImGui_ImplGlfw_NewFrame
  | ImGui_NewFrame
  | ImGui_ShowDemoWindow
  | ImGui_Render
  | ImGui_GetDrawData
  | ImGui_ImplOpenGL3_RenderDrawData
  | glfwSwapBuffers
  | glfwPollEvents
  | glfwGetKey
  | glfwSetWindowShouldClose
  | ImGui_ImplOpenGL3_Shutdown
  | ImGui_ImplGlfw_Shutdown
  | ImGui_DestroyContext
  | glDeleteProgram
  | glDeleteBuffers
  | glDeleteVertexArrays
  deriving DecidableEq

/-- One argument value of a call. -/
inductive Arg
  | int (v : Int)
  | nat (v : Nat)
  | bool (v : Bool)
  | str (v : String)
  | gl (v : GLenum)
  | glfw (v : GLFWenum)
  | hint (v : HintValue)
  | handle (v : Handle)
  | source (v : ShaderSource)
  | rat (v : Rat)
  | rats (v : List Rat)
  deriving DecidableEq

/-- The function a call invokes. -/
def Call.fn : Call → Fn
  | Call.glfwInit => Fn.glfwInit
  | Call.log _ => Fn.log
  | Call.glfwWindowHint _ _ => Fn.glfwWindowHint
  | Call.glfwGetPrimaryMonitor => Fn.glfwGetPrimaryMonitor
  | Call.glfwGetVideoMode => Fn.glfwGetVideoMode
  | Call.glfwCreateWindow _ _ _ => Fn.glfwCreateWindow
  | Call.glfwTerminate => Fn.glfwTerminate
  | Call.glfwCreateStandardCursor _ => Fn.glfwCreateStandardCursor
  | Call.glfwSetCursor => Fn.glfwSetCursor
  | Call.glfwSetWindowPos _ _ => Fn.glfwSetWindowPos
  | Call.glfwSetWindowAspectRatio _ _ => Fn.glfwSetWindowAspectRatio
  | Call.glfwMakeContextCurrent => Fn.glfwMakeContextCurrent
  | Call.gladLoadGL => Fn.gladLoadGL
  | Call.IMGUI_CHECKVERSION => Fn.IMGUI_CHECKVERSION
  | Call.ImGui_CreateContext => Fn.ImGui_CreateContext
  | Call.ImGui_GetIO_ConfigFlags_NavEnableKeyboard => Fn.ImGui_GetIO_ConfigFlags_NavEnableKeyboard
  | Call.ImGui_ImplGlfw_InitForOpenGL _ => Fn.ImGui_ImplGlfw_InitForOpenGL
  | Call.ImGui_ImplOpenGL3_Init => Fn.ImGui_ImplOpenGL3_Init
  | Call.glCreateShader _ _ => Fn.glCreateShader
  | Call.glShaderSource _ _ _ => Fn.glShaderSource
  | Call.glCompileShader _ => Fn.glCompileShader
  | Call.glGetShaderiv _ _ _ => Fn.glGetShaderiv
  | Call.glGetShaderInfoLog _ _ => Fn.glGetShaderInfoLog
  | Call.glCreateProgram _ => Fn.glCreateProgram
  | Call.glAttachShader _ _ => Fn.glAttachShader
  | Call.glLinkProgram _ => Fn.glLinkProgram
  | Call.glGetProgramiv _ _ _ => Fn.glGetProgramiv
  | Call.glGetProgramInfoLog _ _ => Fn.glGetProgramInfoLog
  | Call.glDeleteShader _ => Fn.glDeleteShader
  | Call.glGenVertexArrays _ _ => Fn.glGenVertexArrays
  | Call.glGenBuffers _ _ => Fn.glGenBuffers
  | Call.glBindVertexArray _ => Fn.glBindVertexArray
  | Call.glBindBuffer _ _ => Fn.glBindBuffer
  | Call.glBufferData _ _ _ _ => Fn.glBufferData
  | Call.glVertexAttribPointer _ _ _ _ _ _ => Fn.glVertexAttribPointer
  | Call.glEnableVertexAttribArray _ => Fn.glEnableVertexAttribArray
  | Call.glClearColor _ _ _ _ => Fn.glClearColor
  | Call.glfwWindowShouldClose _ => Fn.glfwWindowShouldClose
  | Call.glfwGetFramebufferSize _ _ => Fn.glfwGetFramebufferSize
  | Call.glViewport _ _ _ _ => Fn.glViewport
  | Call.glClear _ => Fn.glClear
  | Call.glUseProgram _ => Fn.glUseProgram
  | Call.glDrawArrays _ _ _ => Fn.glDrawArrays
  | Call.ImGui_ImplOpenGL3_NewFrame => Fn.ImGui_ImplOpenGL3_NewFrame
  | Call.ImGui_ImplGlfw_NewFrame => Fn.ImGui_ImplGlfw_NewFrame
  | Call.ImGui_NewFrame => Fn.ImGui_NewFrame
  | Call.ImGui_ShowDemoWindow => Fn.ImGui_ShowDemoWindow
  | Call.ImGui_Render => Fn.ImGui_Render
  | Call.ImGui_GetDrawData => Fn.ImGui_GetDrawData
  | Call.ImGui_ImplOpenGL3_RenderDrawData => Fn.ImGui_ImplOpenGL3_RenderDrawData
  | Call.glfwSwapBuffers => Fn.glfwSwapBuffers
  | Call.glfwPollEvents => Fn.glfwPollEvents
  | Call.glfwGetKey _ _ => Fn.glfwGetKey
  | Call.glfwSetWindowShouldClose _ => Fn.glfwSetWindowShouldClose
  | Call.ImGui_ImplOpenGL3_Shutdown => Fn.ImGui_ImplOpenGL3_Shutdown
  | Call.ImGui_ImplGlfw_Shutdown => Fn.ImGui_ImplGlfw_Shutdown
  | Call.ImGui_DestroyContext => Fn.ImGui_DestroyContext
  | Call.glDeleteProgram _ => Fn.glDeleteProgram
  | Call.glDeleteBuffers _ _ => Fn.glDeleteBuffers
  | Call.glDeleteVertexArrays _ _ => Fn.glDeleteVertexArrays

/-- The argument values of a call, in order. -/
def Call.args : Call → List Arg
  | Call.glfwInit => []
  | Call.log msg => [Arg.str msg]
  | Call.glfwWindowHint hint value => [Arg.glfw hint, Arg.hint value]
  | Call.glfwGetPrimaryMonitor => []
  | Call.glfwGetVideoMode => []
  | Call.glfwCreateWindow width height title => [Arg.int width, Arg.int height, Arg.str title]
  | Call.glfwTerminate => []
  | Call.glfwCreateStandardCursor shape => [Arg.glfw shape]
  | Call.glfwSetCursor => []
  | Call.glfwSetWindowPos x y => [Arg.int x, Arg.int y]
  | Call.glfwSetWindowAspectRatio numer denom => [Arg.int numer, Arg.int denom]
  | Call.glfwMakeContextCurrent => []
  | Call.gladLoadGL => []
  | Call.IMGUI_CHECKVERSION => []
  | Call.ImGui_CreateContext => []
  | Call.ImGui_GetIO_ConfigFlags_NavEnableKeyboard => []
  | Call.ImGui_ImplGlfw_InitForOpenGL installCallbacks => [Arg.bool installCallbacks]
  | Call.ImGui_ImplOpenGL3_Init => []
  | Call.glCreateShader kind result => [Arg.gl kind, Arg.handle result]
  | Call.glShaderSource shader count source => [Arg.handle shader, Arg.nat count, Arg.source source]
  | Call.glCompileShader shader => [Arg.handle shader]
  | Call.glGetShaderiv shader pname result => [Arg.handle shader, Arg.gl pname, Arg.int result]
  | Call.glGetShaderInfoLog shader bufSize => [Arg.handle shader, Arg.nat bufSize]
  | Call.glCreateProgram result => [Arg.handle result]
  | Call.glAttachShader program shader => [Arg.handle program, Arg.handle shader]
  | Call.glLinkProgram program => [Arg.handle program]
  | Call.glGetProgramiv program pname result => [Arg.handle program, Arg.gl pname, Arg.int result]
  | Call.glGetProgramInfoLog program bufSize => [Arg.handle program, Arg.nat bufSize]
  | Call.glDeleteShader shader => [Arg.handle shader]
  | Call.glGenVertexArrays n result => [Arg.nat n, Arg.handle result]
  | Call.glGenBuffers n result => [Arg.nat n, Arg.handle result]
  | Call.glBindVertexArray array => [Arg.handle array]
  | Call.glBindBuffer target buffer => [Arg.gl target, Arg.handle buffer]
  | Call.glBufferData target size data usage => [Arg.gl target, Arg.nat size, Arg.rats data, Arg.gl usage]
  | Call.glVertexAttribPointer index size type normalized stride offset => [Arg.nat index, Arg.nat size, Arg.gl type, Arg.bool normalized, Arg.nat stride, Arg.nat offset]
  | Call.glEnableVertexAttribArray index => [Arg.nat index]
  | Call.glClearColor r g b a => [Arg.rat r, Arg.rat g, Arg.rat b, Arg.rat a]
  | Call.glfwWindowShouldClose result => [Arg.bool result]
  | Call.glfwGetFramebufferSize width height => [Arg.int width, Arg.int height]
  | Call.glViewport x y width height => [Arg.int x, Arg.int y, Arg.int width, Arg.int height]
  | Call.glClear mask => [Arg.gl mask]
  | Call.glUseProgram program => [Arg.handle program]
  | Call.glDrawArrays mode first count => [Arg.gl mode, Arg.nat first, Arg.nat count]
  | Call.ImGui_ImplOpenGL3_NewFrame => []
  | Call.ImGui_ImplGlfw_NewFrame => []
  | Call.ImGui_NewFrame => []
  | Call.ImGui_ShowDemoWindow => []
  | Call.ImGui_Render => []
  | Call.ImGui_GetDrawData => []
  | Call.ImGui_ImplOpenGL3_RenderDrawData => []
  | Call.glfwSwapBuffers => []
  | Call.glfwPollEvents => []
  | Call.glfwGetKey key result => [Arg.glfw key, Arg.int result]
  | Call.glfwSetWindowShouldClose value => [Arg.bool value]
  | Call.ImGui_ImplOpenGL3_Shutdown => []
  | Call.ImGui_ImplGlfw_Shutdown => []
  | Call.ImGui_DestroyContext => []
  | Call.glDeleteProgram program => [Arg.handle program]
  | Call.glDeleteBuffers n buffer => [Arg.nat n, Arg.handle buffer]
  | Call.glDeleteVertexArrays n array => [Arg.nat n, Arg.handle array]

/-- The call with the given function and argument values, if they fit. -/
def Call.ofParts : Fn → List Arg → Option Call
  | Fn.glfwInit, [] => some (Call.glfwInit)
  | Fn.log, [Arg.str msg] => some (Call.log msg)
  | Fn.glfwWindowHint, [Arg.glfw hint, Arg.hint value] => some (Call.glfwWindowHint hint value)
  | Fn.glfwGetPrimaryMonitor, [] => some (Call.glfwGetPrimaryMonitor)
  | Fn.glfwGetVideoMode, [] => some (Call.glfwGetVideoMode)
  | Fn.glfwCreateWindow, [Arg.int width, Arg.int height, Arg.str title] => some (Call.glfwCreateWindow width height title)
  | Fn.glfwTerminate, [] => some (Call.glfwTerminate)
  | Fn.glfwCreateStandardCursor, [Arg.glfw shape] => some (Call.glfwCreateStandardCursor shape)
  | Fn.glfwSetCursor, [] => some (Call.glfwSetCursor)
  | Fn.glfwSetWindowPos, [Arg.int x, Arg.int y] => some (Call.glfwSetWindowPos x y)
  | Fn.glfwSetWindowAspectRatio, [Arg.int numer, Arg.int denom] => some (Call.glfwSetWindowAspectRatio numer denom)
  | Fn.glfwMakeContextCurrent, [] => some (Call.glfwMakeContextCurrent)
  | Fn.gladLoadGL, [] => some (Call.gladLoadGL)
  | Fn.IMGUI_CHECKVERSION, [] => some (Call.IMGUI_CHECKVERSION)
  | Fn.ImGui_CreateContext, [] => some (Call.ImGui_CreateContext)
  | Fn.ImGui_GetIO_ConfigFlags_NavEnableKeyboard, [] => some (Call.ImGui_GetIO_ConfigFlags_NavEnableKeyboard)
  | Fn.ImGui_ImplGlfw_InitForOpenGL, [Arg.bool installCallbacks] => some (Call.ImGui_ImplGlfw_InitForOpenGL installCallbacks)
  | Fn.ImGui_ImplOpenGL3_Init, [] => some (Call.ImGui_ImplOpenGL3_Init)
  | Fn.glCreateShader, [Arg.gl kind, Arg.handle result] => some (Call.glCreateShader kind result)
  | Fn.glShaderSource, [Arg.handle shader, Arg.nat count, Arg.source source] => some (Call.glShaderSource shader count source)
  | Fn.glCompileShader, [Arg.handle shader] => some (Call.glCompileShader shader)
  | Fn.glGetShaderiv, [Arg.handle shader, Arg.gl pname, Arg.int result] => some (Call.glGetShaderiv shader pname result)
  | Fn.glGetShaderInfoLog, [Arg.handle shader, Arg.nat bufSize] => some (Call.glGetShaderInfoLog shader bufSize)
  | Fn.glCreateProgram, [Arg.handle result] => some (Call.glCreateProgram result)
  | Fn.glAttachShader, [Arg.handle program, Arg.handle shader] => some (Call.glAttachShader program shader)
  | Fn.glLinkProgram, [Arg.handle program] => some (Call.glLinkProgram program)
  | Fn.glGetProgramiv, [Arg.handle program, Arg.gl pname, Arg.int result] => some (Call.glGetProgramiv program pname result)
  | Fn.glGetProgramInfoLog, [Arg.handle program, Arg.nat bufSize] => some (Call.glGetProgramInfoLog program bufSize)
  | Fn.glDeleteShader, [Arg.handle shader] => some (Call.glDeleteShader shader)
  | Fn.glGenVertexArrays, [Arg.nat n, Arg.handle result] => some (Call.glGenVertexArrays n result)
  | Fn.glGenBuffers, [Arg.nat n, Arg.handle result] => some (Call.glGenBuffers n result)
  | Fn.glBindVertexArray, [Arg.handle array] => some (Call.glBindVertexArray array)
  | Fn.glBindBuffer, [Arg.gl target, Arg.handle buffer] => some (Call.glBindBuffer target buffer)
  | Fn.glBufferData, [Arg.gl target, Arg.nat size, Arg.rats data, Arg.gl usage] => some (Call.glBufferData target size data usage)
  | Fn.glVertexAttribPointer, [Arg.nat index, Arg.nat size, Arg.gl type, Arg.bool normalized, Arg.nat stride, Arg.nat offset] => some (Call.glVertexAttribPointer index size type normalized stride offset)
  | Fn.glEnableVertexAttribArray, [Arg.nat index] => some (Call.glEnableVertexAttribArray index)
  | Fn.glClearColor, [Arg.rat r, Arg.rat g, Arg.rat b, Arg.rat a] => some (Call.glClearColor r g b a)
  | Fn.glfwWindowShouldClose, [Arg.bool result] => some (Call.glfwWindowShouldClose result)
  | Fn.glfwGetFramebufferSize, [Arg.int width, Arg.int height] => some (Call.glfwGetFramebufferSize width height)
  | Fn.glViewport, [Arg.int x, Arg.int y, Arg.int width, Arg.int height] => some (Call.glViewport x y width height)
  | Fn.glClear, [Arg.gl mask] => some (Call.glClear mask)
  | Fn.glUseProgram, [Arg.handle program] => some (Call.glUseProgram program)
  | Fn.glDrawArrays, [Arg.gl mode, Arg.nat first, Arg.nat count] => some (Call.glDrawArrays mode first count)
  | Fn.ImGui_ImplOpenGL3_NewFrame, [] => some (Call.ImGui_ImplOpenGL3_NewFrame)
  | Fn.ImGui_ImplGlfw_NewFrame, [] => some (Call.ImGui_ImplGlfw_NewFrame)
  | Fn.ImGui_NewFrame, [] => some (Call.ImGui_NewFrame)
  | Fn.ImGui_ShowDemoWindow, [] => some (Call.ImGui_ShowDemoWindow)
  | Fn.ImGui_Render, [] => some (Call.ImGui_Render)
  | Fn.ImGui_GetDrawData, [] => some (Call.ImGui_GetDrawData)
  | Fn.ImGui_ImplOpenGL3_RenderDrawData, [] => some (Call.ImGui_ImplOpenGL3_RenderDrawData)
  | Fn.glfwSwapBuffers, [] => some (Call.glfwSwapBuffers)
  | Fn.glfwPollEvents, [] => some (Call.glfwPollEvents)
  | Fn.glfwGetKey, [Arg.glfw key, Arg.int result] => some (Call.glfwGetKey key result)
  | Fn.glfwSetWindowShouldClose, [Arg.bool value] => some (Call.glfwSetWindowShouldClose value)
  | Fn.ImGui_ImplOpenGL3_Shutdown, [] => some (Call.ImGui_ImplOpenGL3_Shutdown)
  | Fn.ImGui_ImplGlfw_Shutdown, [] => some (Call.ImGui_ImplGlfw_Shutdown)
  | Fn.ImGui_DestroyContext, [] => some (Call.ImGui_DestroyContext)
  | Fn.glDeleteProgram, [Arg.handle program] => some (Call.glDeleteProgram program)
  | Fn.glDeleteBuffers, [Arg.nat n, Arg.handle buffer] => some (Call.glDeleteBuffers n buffer)
  | Fn.glDeleteVertexArrays, [Arg.nat n, Arg.handle array] => some (Call.glDeleteVertexArrays n array)
  | _, _ => none

/-- Equality of calls is decided on the function and the argument values,
from which a call can be rebuilt. -/
instance : DecidableEq Call := fun a b =>
  have rebuild : ∀ c : Call, Call.ofParts c.fn c.args = some c := fun c => by
    cases c <;> rfl
  decidable_of_iff (a.fn = b.fn ∧ a.args = b.args)
    ⟨fun h => Option.some.inj (by rw [← rebuild a, ← rebuild b, h.1, h.2]),
     fun h => by rw [h]; exact ⟨rfl, rfl⟩⟩

/-! ## The environment -/

/-- The fields of `GLFWvidmode` that `main` reads (C `int`s). -/
structure VideoMode where
  width : Int
  height : Int
  deriving DecidableEq

/-- What the outside world reports during one iteration of the render loop. -/
structure Frame where
  /-- Values written by `glfwGetFramebufferSize`. -/
  fbWidth : Int
  fbHeight : Int
  /-- The windowing system delivers a close request during this iteration. -/
  closeRequested : Bool
  /-- Value returned by `glfwGetKey(window, GLFW_KEY_Q)`. -/
  keyQ : Int
  deriving DecidableEq

/-- Everything a run of `main` receives from outside. -/
structure Env where
  /-- Compiled with `__APPLE__` defined. -/
  apple : Bool
  /-- Return value of `glfwInit()`. -/
  glfwInit : Int
  /-- The video mode of the primary monitor. -/
  videoMode : VideoMode
  /-- The pointer returned by `glfwCreateWindow` is not `NULL`. -/
  windowCreated : Bool
  /-- Return value of `gladLoadGL()`. -/
  gladLoadGL : Int
  /-- Value of `GL_COMPILE_STATUS` reported for the vertex shader. -/
  vertexCompileStatus : Int
  /-- Value of `GL_COMPILE_STATUS` reported for the fragment shader. -/
  fragmentCompileStatus : Int
  /-- Value of `GL_LINK_STATUS` reported for the program. -/
  linkStatus : Int
  /-- The should-close flag is already set when the loop is first reached. -/
  closeAtStart : Bool
  /-- What each successive loop iteration is shown. -/
  frames : List Frame

/-- A run of `main`: the calls made, in order, and the return code; `ret` is
`none` for a run that is still inside the render loop when its script of
frames ends. -/
structure Run where
  trace : List Call
  ret : Option Int
  deriving DecidableEq

/-! ## C `int` arithmetic -/

/-- Reduction of a mathematical integer to a 32-bit `int` in two-complement form. -/
def wrapInt32 (x : Int) : Int := (x + 2^31) % 2^32 - 2^31

/-- C `a - b` on `int`. -/
def intSub (a b : Int) : Int := wrapInt32 (a - b)

/-- C `a / b` on `int` (truncation toward zero). -/
def intDiv (a b : Int) : Int := wrapInt32 (Int.tdiv a b)

/-- A value that fits a C `int`. -/
def IsInt32 (x : Int) : Prop := -2^31 ≤ x ∧ x < 2^31

/-- The local `screenWidth`. -/
def screenWidth (vm : VideoMode) : Int := vm.width

/-- The local `screenHeight`. -/
def screenHeight (vm : VideoMode) : Int := vm.height

/-- The local `windowWidth = screenHeight / 2`. -/
def windowWidth (vm : VideoMode) : Int := intDiv (screenHeight vm) 2

/-- The local `windowHeight = screenHeight / 2`. -/
def windowHeight (vm : VideoMode) : Int := intDiv (screenHeight vm) 2

/-- The local `windowPosX = (screenWidth - windowWidth) / 2`. -/
def windowPosX (vm : VideoMode) : Int := intDiv (intSub (screenWidth vm) (windowWidth vm)) 2

/-- The local `windowPosY = (screenHeight - windowHeight) / 2`. -/
def windowPosY (vm : VideoMode) : Int := intDiv (intSub (screenHeight vm) (windowHeight vm)) 2

/-! ## The program -/

/-- The function `tryCompileShaderWithLog(shaderID)`: the calls it makes and the flag it
returns, where `success` is the value `glGetShaderiv` writes. -/
def tryCompileShaderWithLog (shaderID : Handle) (success : Int) : List Call × Bool :=
  let t := [Call.glCompileShader shaderID,
            Call.glGetShaderiv shaderID GLenum.GL_COMPILE_STATUS success]
  if success = GL_FALSE then
    (t ++ [Call.glGetShaderInfoLog shaderID 1024, Call.log "cannot compile shader\n"], false)
  else
    (t, true)

/-- The function `tryLinkProgramWithLog(programID)`: the calls it makes and the flag it
returns, where `success` is the value `glGetProgramiv` writes. -/
def tryLinkProgramWithLog (programID : Handle) (success : Int) : List Call × Bool :=
  let t := [Call.glLinkProgram programID,
            Call.glGetProgramiv programID GLenum.GL_LINK_STATUS success]
  if success = GL_FALSE then
    (t ++ [Call.glGetProgramInfoLog programID 1024, Call.log "cannot link shader\n"], false)
  else
    (t, true)

/-- The body of the `while` loop for one iteration: the calls made, and the
value of the should-close flag of the window when the body ends.  The flag is false
when the body starts (the loop condition has just passed); a close request
delivered during the iteration sets it, and so does the `Q` branch. -/
def loopBody (f : Frame) : List Call × Bool :=
  let t := [Call.glfwGetFramebufferSize f.fbWidth f.fbHeight,
            Call.glViewport 0 0 f.fbWidth f.fbHeight,
            Call.glClear GLenum.GL_COLOR_BUFFER_BIT,
            Call.glUseProgram Handle.shaderProgram,
            Call.glBindVertexArray Handle.VAO,
            Call.glDrawArrays GLenum.GL_TRIANGLES 0 3,
            Call.ImGui_ImplOpenGL3_NewFrame,
            Call.ImGui_ImplGlfw_NewFrame,
            Call.ImGui_NewFrame,
            Call.ImGui_ShowDemoWindow,
            Call.ImGui_Render,
            Call.ImGui_GetDrawData,
            Call.ImGui_ImplOpenGL3_RenderDrawData,
            Call.glfwSwapBuffers,
            Call.glfwPollEvents,
            Call.glfwGetKey GLFWenum.GLFW_KEY_Q f.keyQ]
  if f.keyQ = GLFW_PRESS then
    (t ++ [Call.glfwSetWindowShouldClose true], true)
  else
    (t, f.closeRequested)

/-- The `while (!glfwWindowShouldClose(window))` loop, started with the given
should-close flag and shown the given frames, one per iteration: the calls
made, and whether the loop has ended.  When the frames run out while the flag
is still false the loop has not ended within the script, and the second
component is `false`. -/
def renderLoop : Bool → List Frame → List Call × Bool
  | true, _ => ([Call.glfwWindowShouldClose true], true)
  | false, [] => ([], false)
  | false, f :: fs =>
    (Call.glfwWindowShouldClose false :: (loopBody f).1 ++ (renderLoop (loopBody f).2 fs).1,
     (renderLoop (loopBody f).2 fs).2)

/-- The teardown after the loop, lines 189 to 197. -/
def teardown : List Call :=
  [Call.ImGui_ImplOpenGL3_Shutdown,
   Call.ImGui_ImplGlfw_Shutdown,
   Call.ImGui_DestroyContext,
   Call.glDeleteProgram Handle.shaderProgram,
   Call.glDeleteBuffers 1 Handle.VBO,
   Call.glDeleteVertexArrays 1 Handle.VAO,
   Call.glfwTerminate]

/-- The function `main`: the trace of its calls and its return code. -/
def main (env : Env) : Run :=
  let t := [Call.glfwInit]
  if env.glfwInit = 0 then
    ⟨t ++ [Call.log "glfw error\n"], some (-1)⟩
  else
  let t := t ++
    [Call.glfwWindowHint GLFWenum.GLFW_CONTEXT_VERSION_MAJOR (HintValue.lit 3),
     Call.glfwWindowHint GLFWenum.GLFW_CONTEXT_VERSION_MINOR (HintValue.lit 3),
     Call.glfwWindowHint GLFWenum.GLFW_OPENGL_PROFILE
       (HintValue.glfw GLFWenum.GLFW_OPENGL_CORE_PROFILE)]
  let t := if env.apple then
      t ++ [Call.glfwWindowHint GLFWenum.GLFW_OPENGL_FORWARD_COMPAT (HintValue.gl GLenum.GL_TRUE)]
    else t
  let t := t ++
    [Call.glfwGetPrimaryMonitor,
     Call.glfwGetVideoMode,
     Call.glfwCreateWindow (intDiv (screenHeight env.videoMode) 2)
       (intDiv (screenHeight env.videoMode) 2) "OpenGL + GLFW"]
  if env.windowCreated = false then
    ⟨t ++ [Call.log "cannot create window\n", Call.glfwTerminate], some (-1)⟩
  else
  let t := t ++
    [Call.glfwCreateStandardCursor GLFWenum.GLFW_ARROW_CURSOR,
     Call.glfwSetCursor,
     Call.glfwSetWindowPos (windowPosX env.videoMode) (windowPosY env.videoMode),
     Call.glfwSetWindowAspectRatio 1 1,
     Call.glfwMakeContextCurrent,
     Call.gladLoadGL]
  if env.gladLoadGL = 0 then
    ⟨t ++ [Call.log "cannot init glew\n", Call.glfwTerminate], some (-1)⟩
  else
  let t := t ++
    [Call.IMGUI_CHECKVERSION,
     Call.ImGui_CreateContext,
     Call.ImGui_GetIO_ConfigFlags_NavEnableKeyboard,
     Call.ImGui_ImplGlfw_InitForOpenGL true,
     Call.ImGui_ImplOpenGL3_Init,
     Call.glCreateShader GLenum.GL_VERTEX_SHADER Handle.vertexShader,
     Call.glShaderSource Handle.vertexShader 1 ShaderSource.vertexShaderSource]
  let vs := tryCompileShaderWithLog Handle.vertexShader env.vertexCompileStatus
  let t := t ++ vs.1
  if vs.2 = false then
    ⟨t ++ [Call.glfwTerminate], some (-1)⟩
  else
  let t := t ++
    [Call.glCreateShader GLenum.GL_FRAGMENT_SHADER Handle.fragmentShader,
     Call.glShaderSource Handle.fragmentShader 1 ShaderSource.fragmentShaderSource]
  let fs := tryCompileShaderWithLog Handle.fragmentShader env.fragmentCompileStatus
  let t := t ++ fs.1
  if fs.2 = false then
    ⟨t ++ [Call.glfwTerminate], some (-1)⟩
  else
  let t := t ++
    [Call.glCreateProgram Handle.shaderProgram,
     Call.glAttachShader Handle.shaderProgram Handle.vertexShader,
     Call.glAttachShader Handle.shaderProgram Handle.fragmentShader]
  let ln := tryLinkProgramWithLog Handle.shaderProgram env.linkStatus
  let t := t ++ ln.1
  if ln.2 = false then
    ⟨t ++ [Call.glfwTerminate], some (-1)⟩
  else
  let t := t ++
    [Call.glDeleteShader Handle.vertexShader,
     Call.glDeleteShader Handle.fragmentShader,
     Call.glGenVertexArrays 1 Handle.VAO,
     Call.glGenBuffers 1 Handle.VBO,
     Call.glBindVertexArray Handle.VAO,
     Call.glBindBuffer GLenum.GL_ARRAY_BUFFER Handle.VBO,
     Call.glBufferData GLenum.GL_ARRAY_BUFFER (triangleVertices.length * sizeofFloat)
       triangleVertices GLenum.GL_STATIC_DRAW,
     Call.glVertexAttribPointer 0 2 GLenum.GL_FLOAT false (3 * sizeofFloat) 0,
     Call.glEnableVertexAttribArray 0,
     Call.glClearColor 0 0 0 1]
  let loop := renderLoop env.closeAtStart env.frames
  let t := t ++ loop.1
  if loop.2 = false then
    ⟨t, none⟩
  else
    ⟨t ++ teardown, some 0⟩

/-- A sample environment: a 1920x1080 monitor, every checked step succeeds,
and the run is shown the given frames. -/
def sampleEnv (frames : List Frame) : Env :=
  { apple := false, glfwInit := 1, videoMode := ⟨1920, 1080⟩, windowCreated := true,
    gladLoadGL := 1, vertexCompileStatus := 1, fragmentCompileStatus := 1, linkStatus := 1,
    closeAtStart := false, frames := frames }

/-- The sample environment with `glfwInit` failing. -/
def initFailEnv : Env := { sampleEnv [] with glfwInit := 0 }

/-- The sample environment with the vertex shader failing to compile. -/
def vertexFailEnv : Env := { sampleEnv [] with vertexCompileStatus := GL_FALSE }

/-- A frame of a 540x540 framebuffer with no close request and `Q` released. -/
def idleFrame : Frame := ⟨540, 540, false, 0⟩

/-- A frame during which `Q` is held down. -/
def quitFrame : Frame := ⟨540, 540, false, GLFW_PRESS⟩

/-- A frame during which the close button of the window is clicked. -/
def closeFrame : Frame := ⟨540, 540, true, 0⟩

/-! ## Vocabulary of the properties -/

/-- All five checked initialization steps succeed: `glfwInit`, window creation,
`gladLoadGL`, both shader compiles, and the program link. -/
def AllStepsSucceed (env : Env) : Prop :=
  env.glfwInit ≠ 0 ∧ env.windowCreated = true ∧ env.gladLoadGL ≠ 0 ∧
  (env.vertexCompileStatus ≠ GL_FALSE ∧ env.fragmentCompileStatus ≠ GL_FALSE) ∧
  env.linkStatus ≠ GL_FALSE

instance (env : Env) : Decidable (AllStepsSucceed env) := by
  unfold AllStepsSucceed; infer_instance

/-- A frame that ends the loop: a close request is delivered during it, or
`Q` is reported pressed at its key check. -/
def Frame.closes (f : Frame) : Prop := f.closeRequested = true ∨ f.keyQ = GLFW_PRESS

instance (f : Frame) : Decidable f.closes := by
  unfold Frame.closes; infer_instance

/-- The render loop of this run ends: the should-close flag is set when the
loop is reached, or some frame of the script closes. -/
def LoopEnds (env : Env) : Prop := env.closeAtStart = true ∨ ∃ f ∈ env.frames, f.closes

instance (env : Env) : Decidable (LoopEnds env) := by
  unfold LoopEnds; infer_instance

/-- The five fatal failure categories. -/
inductive Failure
  | glfwInit
  | createWindow
  | gladLoad
  | shaderCompile
  | programLink
  deriving DecidableEq

/-- The failure a run meets: the first checked step, in program order, whose
outcome is a failure; `none` when all succeed. -/
def failure (env : Env) : Option Failure :=
  if env.glfwInit = 0 then some Failure.glfwInit
  else if env.windowCreated = false then some Failure.createWindow
  else if env.gladLoadGL = 0 then some Failure.gladLoad
  else if env.vertexCompileStatus = GL_FALSE then some Failure.shaderCompile
  else if env.fragmentCompileStatus = GL_FALSE then some Failure.shaderCompile
  else if env.linkStatus = GL_FALSE then some Failure.programLink
  else none

/-- The fixed console line of each failure category. -/
def Failure.message : Failure → String
  | Failure.glfwInit => "glfw error\n"
  | Failure.createWindow => "cannot create window\n"
  | Failure.gladLoad => "cannot init glew\n"
  | Failure.shaderCompile => "cannot compile shader\n"
  | Failure.programLink => "cannot link shader\n"

/-- The console lines of a trace, in order. -/
def logged (t : List Call) : List String :=
  t.filterMap fun c => match c with
    | Call.log msg => some msg
    | _ => none

/-- Calls that only the body of the render loop makes: clear, draw, swap,
poll. -/
def Call.isFrameWork : Call → Bool
  | Call.glClear _ => true
  | Call.glDrawArrays _ _ _ => true
  | Call.glfwSwapBuffers => true
  | Call.glfwPollEvents => true
  | _ => false

/-- Calls that the render loop makes: its condition and the calls of its
body. -/
def Call.isLoopCall : Call → Bool
  | Call.glfwWindowShouldClose _ => true
  | Call.glfwGetFramebufferSize _ _ => true
  | Call.glViewport _ _ _ _ => true
  | Call.glClear _ => true
  | Call.glUseProgram _ => true
  | Call.glBindVertexArray _ => true
  | Call.glDrawArrays _ _ _ => true
  | Call.ImGui_ImplOpenGL3_NewFrame => true
  | Call.ImGui_ImplGlfw_NewFrame => true
  | Call.ImGui_NewFrame => true
  | Call.ImGui_ShowDemoWindow => true
  | Call.ImGui_Render => true
  | Call.ImGui_GetDrawData => true
  | Call.ImGui_ImplOpenGL3_RenderDrawData => true
  | Call.glfwSwapBuffers => true
  | Call.glfwPollEvents => true
  | Call.glfwGetKey _ _ => true
  | Call.glfwSetWindowShouldClose _ => true
  | _ => false

/-- Calls that `main` makes while setting up, before the render loop: every
call except console lines, `glfwTerminate`, the calls that only the loop makes
and the releases of teardown. -/
def Call.isSetupCall : Call → Bool
  | Call.log _ => false
  | Call.glfwTerminate => false
  | Call.glfwWindowShouldClose _ => false
  | Call.glfwGetFramebufferSize _ _ => false
  | Call.glViewport _ _ _ _ => false
  | Call.glClear _ => false
  | Call.glUseProgram _ => false
  | Call.glDrawArrays _ _ _ => false
  | Call.ImGui_ImplOpenGL3_NewFrame => false
  | Call.ImGui_ImplGlfw_NewFrame => false
  | Call.ImGui_NewFrame => false
  | Call.ImGui_ShowDemoWindow => false
  | Call.ImGui_Render => false
  | Call.ImGui_GetDrawData => false
  | Call.ImGui_ImplOpenGL3_RenderDrawData => false
  | Call.glfwSwapBuffers => false
  | Call.glfwPollEvents => false
  | Call.glfwGetKey _ _ => false
  | Call.glfwSetWindowShouldClose _ => false
  | Call.ImGui_ImplOpenGL3_Shutdown => false
  | Call.ImGui_ImplGlfw_Shutdown => false
  | Call.ImGui_DestroyContext => false
  | Call.glDeleteProgram _ => false
  | Call.glDeleteBuffers _ _ => false
  | Call.glDeleteVertexArrays _ _ => false
  | _ => true

/-- The handle a call deletes, if it is a delete call. -/
def Call.deleted : Call → Option Handle
  | Call.glDeleteShader h => some h
  | Call.glDeleteProgram h => some h
  | Call.glDeleteBuffers _ h => some h
  | Call.glDeleteVertexArrays _ h => some h
  | _ => none

/-- Lines 50 to 72 on the path past `glfwInit`: the window hints, the video
mode query and the creation of the window. -/
def windowCalls (env : Env) : List Call :=
  [Call.glfwInit,
   Call.glfwWindowHint GLFWenum.GLFW_CONTEXT_VERSION_MAJOR (HintValue.lit 3),
   Call.glfwWindowHint GLFWenum.GLFW_CONTEXT_VERSION_MINOR (HintValue.lit 3),
   Call.glfwWindowHint GLFWenum.GLFW_OPENGL_PROFILE
     (HintValue.glfw GLFWenum.GLFW_OPENGL_CORE_PROFILE)] ++
  (if env.apple then
     [Call.glfwWindowHint GLFWenum.GLFW_OPENGL_FORWARD_COMPAT (HintValue.gl GLenum.GL_TRUE)]
   else []) ++
  [Call.glfwGetPrimaryMonitor,
   Call.glfwGetVideoMode,
   Call.glfwCreateWindow (intDiv (screenHeight env.videoMode) 2)
     (intDiv (screenHeight env.videoMode) 2) "OpenGL + GLFW"]

/-- Lines 80 to 93: cursor, centering, aspect ratio, context, loader. -/
def contextCalls (env : Env) : List Call :=
  [Call.glfwCreateStandardCursor GLFWenum.GLFW_ARROW_CURSOR,
   Call.glfwSetCursor,
   Call.glfwSetWindowPos (windowPosX env.videoMode) (windowPosY env.videoMode),
   Call.glfwSetWindowAspectRatio 1 1,
   Call.glfwMakeContextCurrent,
   Call.gladLoadGL]

/-- Lines 100 to 105: the overlay GUI is initialized. -/
def guiCalls : List Call :=
  [Call.IMGUI_CHECKVERSION,
   Call.ImGui_CreateContext,
   Call.ImGui_GetIO_ConfigFlags_NavEnableKeyboard,
   Call.ImGui_ImplGlfw_InitForOpenGL true,
   Call.ImGui_ImplOpenGL3_Init]

/-- Lines 108 to 111 up to the status query of the vertex shader. -/
def vertexShaderCalls (env : Env) : List Call :=
  [Call.glCreateShader GLenum.GL_VERTEX_SHADER Handle.vertexShader,
   Call.glShaderSource Handle.vertexShader 1 ShaderSource.vertexShaderSource,
   Call.glCompileShader Handle.vertexShader,
   Call.glGetShaderiv Handle.vertexShader GLenum.GL_COMPILE_STATUS env.vertexCompileStatus]

/-- Lines 116 to 119 up to the status query of the fragment shader. -/
def fragmentShaderCalls (env : Env) : List Call :=
  [Call.glCreateShader GLenum.GL_FRAGMENT_SHADER Handle.fragmentShader,
   Call.glShaderSource Handle.fragmentShader 1 ShaderSource.fragmentShaderSource,
   Call.glCompileShader Handle.fragmentShader,
   Call.glGetShaderiv Handle.fragmentShader GLenum.GL_COMPILE_STATUS env.fragmentCompileStatus]

/-- Lines 124 to 128 up to the status query of the program. -/
def programCalls (env : Env) : List Call :=
  [Call.glCreateProgram Handle.shaderProgram,
   Call.glAttachShader Handle.shaderProgram Handle.vertexShader,
   Call.glAttachShader Handle.shaderProgram Handle.fragmentShader,
   Call.glLinkProgram Handle.shaderProgram,
   Call.glGetProgramiv Handle.shaderProgram GLenum.GL_LINK_STATUS env.linkStatus]

/-- Lines 133 to 151: the shaders are deleted and the geometry is uploaded. -/
def geometryCalls : List Call :=
  [Call.glDeleteShader Handle.vertexShader,
   Call.glDeleteShader Handle.fragmentShader,
   Call.glGenVertexArrays 1 Handle.VAO,
   Call.glGenBuffers 1 Handle.VBO,
   Call.glBindVertexArray Handle.VAO,
   Call.glBindBuffer GLenum.GL_ARRAY_BUFFER Handle.VBO,
   Call.glBufferData GLenum.GL_ARRAY_BUFFER 36 triangleVertices GLenum.GL_STATIC_DRAW,
   Call.glVertexAttribPointer 0 2 GLenum.GL_FLOAT false 12 0,
   Call.glEnableVertexAttribArray 0,
   Call.glClearColor 0 0 0 1]

/-- The calls `main` makes before the render loop on the path where every
checked step succeeds (lines 50 to 151). -/
def setupCalls (env : Env) : List Call :=
  windowCalls env ++ contextCalls env ++ guiCalls ++ vertexShaderCalls env ++
    fragmentShaderCalls env ++ programCalls env ++ geometryCalls

/-- The calls of the iterations run on the given frames: for each, the loop
condition (which passes) and the body. -/
def iterationCalls (frames : List Frame) : List Call :=
  frames.flatMap fun f => Call.glfwWindowShouldClose false :: (loopBody f).1

/-- The resources `main` acquires and releases at teardown. -/
inductive Resource
  | windowingLibrary
  | guiContext
  | guiWindowBackend
  | guiRenderBackend
  | pipelineProgram
  | vertexArray
  | vertexBuffer
  deriving DecidableEq

/-- The call by which `main` acquires a resource. -/
def Resource.acquire : Resource → Call
  | Resource.windowingLibrary => Call.glfwInit
  | Resource.guiContext => Call.ImGui_CreateContext
  | Resource.guiWindowBackend => Call.ImGui_ImplGlfw_InitForOpenGL true
  | Resource.guiRenderBackend => Call.ImGui_ImplOpenGL3_Init
  | Resource.pipelineProgram => Call.glCreateProgram Handle.shaderProgram
  | Resource.vertexArray => Call.glGenVertexArrays 1 Handle.VAO
  | Resource.vertexBuffer => Call.glGenBuffers 1 Handle.VBO

/-- The call by which `main` releases a resource at teardown. -/
def Resource.release : Resource → Call
  | Resource.windowingLibrary => Call.glfwTerminate
  | Resource.guiContext => Call.ImGui_DestroyContext
  | Resource.guiWindowBackend => Call.ImGui_ImplGlfw_Shutdown
  | Resource.guiRenderBackend => Call.ImGui_ImplOpenGL3_Shutdown
  | Resource.pipelineProgram => Call.glDeleteProgram Handle.shaderProgram
  | Resource.vertexArray => Call.glDeleteVertexArrays 1 Handle.VAO
  | Resource.vertexBuffer => Call.glDeleteBuffers 1 Handle.VBO

/-- The resource is one of the three overlay-GUI resources. -/
def Resource.isGui : Resource → Bool
  | Resource.guiContext => true
  | Resource.guiWindowBackend => true
  | Resource.guiRenderBackend => true
  | _ => false

/-- Call `a` occurs in the trace, call `b` occurs in it, and the first
occurrence of `a` comes before the first occurrence of `b`. -/
def Before (t : List Call) (a b : Call) : Prop :=
  a ∈ t ∧ b ∈ t ∧ t.indexOf a < t.indexOf b

instance (t : List Call) (a b : Call) : Decidable (Before t a b) := by
  unfold Before; infer_instance

/-! ## Vertex fetch -/

/-- The buffer stores created by the `glBufferData` calls of a trace, in
order: the size in bytes and the floats copied. -/
def uploads (t : List Call) : List (Nat × List Rat) :=
  t.filterMap fun c => match c with
    | Call.glBufferData _ size data _ => some (size, data)
    | _ => none

/-- The layout of a float vertex attribute as set by `glVertexAttribPointer`. -/
structure AttribLayout where
  index : Nat
  size : Nat
  stride : Nat
  offset : Nat
  deriving DecidableEq

/-- The layouts set by the `glVertexAttribPointer` calls of a trace, in
order. -/
def attribLayouts (t : List Call) : List AttribLayout :=
  t.filterMap fun c => match c with
    | Call.glVertexAttribPointer index size _ _ stride offset =>
        some ⟨index, size, stride, offset⟩
    | _ => none

/-- The `(first, count)` ranges of the `glDrawArrays` calls of a trace. -/
def drawRanges (t : List Call) : List (Nat × Nat) :=
  t.filterMap fun c => match c with
    | Call.glDrawArrays _ first count => some (first, count)
    | _ => none

/-- Byte offset in the buffer store at which component `c` of vertex `i` is
fetched, by the rule OpenGL gives for an array attribute with a nonzero
stride: `offset + i * stride + c * sizeof(float)`. -/
def componentOffset (a : AttribLayout) (i c : Nat) : Nat :=
  a.offset + i * a.stride + c * sizeofFloat

/-- The float read at a byte offset of a buffer store of `size` bytes holding
`data`; `none` when the four bytes are not inside the store or not aligned
with a stored float. -/
def readFloat (size : Nat) (data : List Rat) (byteOffset : Nat) : Option Rat :=
  if byteOffset % sizeofFloat = 0 ∧ byteOffset + sizeofFloat ≤ size then
    data[byteOffset / sizeofFloat]?
  else none

/-- The components fetched for vertex `i`. -/
def fetchVertex (size : Nat) (data : List Rat) (a : AttribLayout) (i : Nat) :
    List (Option Rat) :=
  (List.range a.size).map fun c => readFloat size data (componentOffset a i c)

/-- The vertices a draw of the range `(first, count)` fetches. -/
def fetchDraw (size : Nat) (data : List Rat) (a : AttribLayout) (range : Nat × Nat) :
    List (List (Option Rat)) :=
  (List.range range.2).map fun k => fetchVertex size data a (range.1 + k)

/-! # Theorems -/

/-! ## The render loop ends exactly when a frame closes -/

theorem renderLoop_ended_iff (c : Bool) (frames : List Frame) :
    (renderLoop c frames).2 = true ↔ (c = true ∨ ∃ f ∈ frames, f.closes) := by
  induction frames generalizing c with
  | nil => cases c <;> simp [renderLoop]
  | cons f fs ih =>
    cases c with
    | true => simp [renderLoop]
    | false =>
      simp only [renderLoop, ih, loopBody, Frame.closes]
      by_cases hq : f.keyQ = GLFW_PRESS <;> simp [hq]

theorem loopBody_isLoopCall (f : Frame) : ∀ c ∈ (loopBody f).1, c.isLoopCall = true := by
  intro c hc
  unfold loopBody at hc
  by_cases hq : f.keyQ = GLFW_PRESS
  · simp [hq] at hc
    rcases hc with h | h | h | h | h | h | h | h | h | h | h | h | h | h | h | h | h <;>
      subst h <;> rfl
  · simp [hq] at hc
    rcases hc with h | h | h | h | h | h | h | h | h | h | h | h | h | h | h | h <;>
      subst h <;> rfl

theorem renderLoop_isLoopCall (c : Bool) (frames : List Frame) :
    ∀ x ∈ (renderLoop c frames).1, x.isLoopCall = true := by
  induction frames generalizing c with
  | nil => cases c <;> simp [renderLoop, Call.isLoopCall]
  | cons f fs ih =>
    cases c with
    | true => simp [renderLoop, Call.isLoopCall]
    | false =>
      intro x hx
      rw [renderLoop] at hx
      simp only [List.mem_cons, List.mem_append] at hx
      rcases hx with (h | h) | h
      · subst h; rfl
      · exact loopBody_isLoopCall f x h
      · exact ih _ x h

theorem failure_eq_none_iff (env : Env) : failure env = none ↔ AllStepsSucceed env := by
  unfold failure AllStepsSucceed
  by_cases h1 : env.glfwInit = 0 <;> by_cases h2 : env.windowCreated = false <;>
  by_cases h3 : env.gladLoadGL = 0 <;> by_cases h4 : env.vertexCompileStatus = GL_FALSE <;>
  by_cases h5 : env.fragmentCompileStatus = GL_FALSE <;>
  by_cases h6 : env.linkStatus = GL_FALSE <;> simp_all


theorem main_success (env : Env) (h : AllStepsSucceed env) :
    main env =
      if (renderLoop env.closeAtStart env.frames).2 = false then
        ⟨setupCalls env ++ (renderLoop env.closeAtStart env.frames).1, none⟩
      else
        ⟨setupCalls env ++ (renderLoop env.closeAtStart env.frames).1 ++ teardown, some 0⟩ := by
  obtain ⟨h1, h2, h3, ⟨h4, h5⟩, h6⟩ := h
  cases ha : env.apple <;>
    simp [main, setupCalls, windowCalls, contextCalls, guiCalls, vertexShaderCalls,
      fragmentShaderCalls, programCalls, geometryCalls,
      tryCompileShaderWithLog, tryLinkProgramWithLog, h1, h2, h3, h4, h5,
      h6, ha, triangleVertices, sizeofFloat]

theorem main_glfwInit_fails (env : Env) (h : env.glfwInit = 0) :
    main env = ⟨[Call.glfwInit, Call.log "glfw error\n"], some (-1)⟩ := by
  simp [main, h]

theorem main_createWindow_fails (env : Env) (h1 : env.glfwInit ≠ 0)
    (h2 : env.windowCreated = false) :
    main env =
      ⟨windowCalls env ++ [Call.log "cannot create window\n", Call.glfwTerminate],
        some (-1)⟩ := by
  cases ha : env.apple <;> simp [main, windowCalls, h1, h2, ha]

theorem main_gladLoadGL_fails (env : Env) (h1 : env.glfwInit ≠ 0)
    (h2 : env.windowCreated = true) (h3 : env.gladLoadGL = 0) :
    main env =
      ⟨windowCalls env ++ contextCalls env ++
          [Call.log "cannot init glew\n", Call.glfwTerminate],
        some (-1)⟩ := by
  cases ha : env.apple <;> simp [main, windowCalls, contextCalls, h1, h2, h3, ha]

theorem main_vertexCompile_fails (env : Env) (h1 : env.glfwInit ≠ 0)
    (h2 : env.windowCreated = true) (h3 : env.gladLoadGL ≠ 0)
    (h4 : env.vertexCompileStatus = GL_FALSE) :
    main env =
      ⟨windowCalls env ++ contextCalls env ++ guiCalls ++ vertexShaderCalls env ++
          [Call.glGetShaderInfoLog Handle.vertexShader 1024,
           Call.log "cannot compile shader\n", Call.glfwTerminate],
        some (-1)⟩ := by
  cases ha : env.apple <;>
    simp [main, windowCalls, contextCalls, guiCalls, vertexShaderCalls,
      tryCompileShaderWithLog, h1, h2, h3, h4, ha]

theorem main_fragmentCompile_fails (env : Env) (h1 : env.glfwInit ≠ 0)
    (h2 : env.windowCreated = true) (h3 : env.gladLoadGL ≠ 0)
    (h4 : env.vertexCompileStatus ≠ GL_FALSE) (h5 : env.fragmentCompileStatus = GL_FALSE) :
    main env =
      ⟨windowCalls env ++ contextCalls env ++ guiCalls ++ vertexShaderCalls env ++
          fragmentShaderCalls env ++
          [Call.glGetShaderInfoLog Handle.fragmentShader 1024,
           Call.log "cannot compile shader\n", Call.glfwTerminate],
        some (-1)⟩ := by
  cases ha : env.apple <;>
    simp [main, windowCalls, contextCalls, guiCalls, vertexShaderCalls, fragmentShaderCalls,
      tryCompileShaderWithLog, h1, h2, h3, h4, h5, ha]

theorem main_link_fails (env : Env) (h1 : env.glfwInit ≠ 0)
    (h2 : env.windowCreated = true) (h3 : env.gladLoadGL ≠ 0)
    (h4 : env.vertexCompileStatus ≠ GL_FALSE) (h5 : env.fragmentCompileStatus ≠ GL_FALSE)
    (h6 : env.linkStatus = GL_FALSE) :
    main env =
      ⟨windowCalls env ++ contextCalls env ++ guiCalls ++ vertexShaderCalls env ++
          fragmentShaderCalls env ++ programCalls env ++
          [Call.glGetProgramInfoLog Handle.shaderProgram 1024,
           Call.log "cannot link shader\n", Call.glfwTerminate],
        some (-1)⟩ := by
  cases ha : env.apple <;>
    simp [main, windowCalls, contextCalls, guiCalls, vertexShaderCalls, fragmentShaderCalls,
      programCalls, tryCompileShaderWithLog, tryLinkProgramWithLog, h1, h2, h3, h4, h5, h6, ha]

theorem setupCalls_all_isSetupCall (env : Env) :
    (setupCalls env).all Call.isSetupCall = true := by
  cases ha : env.apple <;>
    simp only [setupCalls, windowCalls, ha, if_true, if_false, Bool.false_eq_true] <;> rfl

theorem setupCalls_isSetupCall (env : Env) : ∀ c ∈ setupCalls env, c.isSetupCall = true := by
  simpa [List.all_eq_true] using setupCalls_all_isSetupCall env

theorem failure_cases (env : Env) (f : Failure) (hf : failure env = some f) :
    (f = Failure.glfwInit ∧ env.glfwInit = 0) ∨
    (f = Failure.createWindow ∧ env.glfwInit ≠ 0 ∧ env.windowCreated = false) ∨
    (f = Failure.gladLoad ∧ env.glfwInit ≠ 0 ∧ env.windowCreated = true ∧ env.gladLoadGL = 0) ∨
    (f = Failure.shaderCompile ∧ env.glfwInit ≠ 0 ∧ env.windowCreated = true ∧
      env.gladLoadGL ≠ 0 ∧ env.vertexCompileStatus = GL_FALSE) ∨
    (f = Failure.shaderCompile ∧ env.glfwInit ≠ 0 ∧ env.windowCreated = true ∧
      env.gladLoadGL ≠ 0 ∧ env.vertexCompileStatus ≠ GL_FALSE ∧
      env.fragmentCompileStatus = GL_FALSE) ∨
    (f = Failure.programLink ∧ env.glfwInit ≠ 0 ∧ env.windowCreated = true ∧
      env.gladLoadGL ≠ 0 ∧ env.vertexCompileStatus ≠ GL_FALSE ∧
      env.fragmentCompileStatus ≠ GL_FALSE ∧ env.linkStatus = GL_FALSE) := by
  unfold failure at hf
  by_cases h1 : env.glfwInit = 0
  · simp [h1] at hf; simp [h1, hf.symm]
  by_cases h2 : env.windowCreated = false
  · simp [h1, h2] at hf; simp [h1, h2, hf.symm]
  by_cases h3 : env.gladLoadGL = 0
  · simp [h1, h2, h3] at hf; simp_all
  by_cases h4 : env.vertexCompileStatus = GL_FALSE
  · simp [h1, h2, h3, h4] at hf; simp_all
  by_cases h5 : env.fragmentCompileStatus = GL_FALSE
  · simp [h1, h2, h3, h4, h5] at hf; simp_all
  by_cases h6 : env.linkStatus = GL_FALSE
  · simp [h1, h2, h3, h4, h5, h6] at hf; simp_all
  · simp [h1, h2, h3, h4, h5, h6] at hf

theorem main_failure (env : Env) (f : Failure) (hf : failure env = some f)
    (hne : f ≠ Failure.glfwInit) :
    ∃ pre, main env = ⟨pre ++ [Call.log f.message, Call.glfwTerminate], some (-1)⟩ ∧
      (∀ c ∈ pre, c.isSetupCall = true) ∧
      ((f = Failure.shaderCompile ∨ f = Failure.programLink) → ∀ c ∈ guiCalls, c ∈ pre) := by
  have hs := setupCalls_isSetupCall env
  simp only [setupCalls, List.mem_append] at hs
  rcases failure_cases env f hf with ⟨rfl, _⟩ | ⟨rfl, h1, h2⟩ | ⟨rfl, h1, h2, h3⟩ |
    ⟨rfl, h1, h2, h3, h4⟩ | ⟨rfl, h1, h2, h3, h4, h5⟩ | ⟨rfl, h1, h2, h3, h4, h5, h6⟩
  · exact absurd rfl hne
  · refine ⟨windowCalls env, ?_, ?_, ?_⟩
    · rw [main_createWindow_fails env h1 h2]; rfl
    · intro c hc; apply hs; tauto
    · intro h; simp at h
  · refine ⟨windowCalls env ++ contextCalls env, ?_, ?_, ?_⟩
    · rw [main_gladLoadGL_fails env h1 h2 h3]; rfl
    · intro c hc; simp only [List.mem_append] at hc; apply hs; tauto
    · intro h; simp at h
  · refine ⟨windowCalls env ++ contextCalls env ++ guiCalls ++ vertexShaderCalls env ++
      [Call.glGetShaderInfoLog Handle.vertexShader 1024], ?_, ?_, ?_⟩
    · rw [main_vertexCompile_fails env h1 h2 h3 h4]; simp [Failure.message]
    · intro c hc; simp only [List.mem_append, List.mem_singleton] at hc
      rcases hc with hc | rfl
      · apply hs; tauto
      · rfl
    · intro _ c hc; simp only [List.mem_append]; tauto
  · refine ⟨windowCalls env ++ contextCalls env ++ guiCalls ++ vertexShaderCalls env ++
      fragmentShaderCalls env ++ [Call.glGetShaderInfoLog Handle.fragmentShader 1024],
      ?_, ?_, ?_⟩
    · rw [main_fragmentCompile_fails env h1 h2 h3 h4 h5]; simp [Failure.message]
    · intro c hc; simp only [List.mem_append, List.mem_singleton] at hc
      rcases hc with hc | rfl
      · apply hs; tauto
      · rfl
    · intro _ c hc; simp only [List.mem_append]; tauto
  · refine ⟨windowCalls env ++ contextCalls env ++ guiCalls ++ vertexShaderCalls env ++
      fragmentShaderCalls env ++ programCalls env ++
      [Call.glGetProgramInfoLog Handle.shaderProgram 1024], ?_, ?_, ?_⟩
    · rw [main_link_fails env h1 h2 h3 h4 h5 h6]; simp [Failure.message]
    · intro c hc; simp only [List.mem_append, List.mem_singleton] at hc
      rcases hc with hc | rfl
      · apply hs; tauto
      · rfl
    · intro _ c hc; simp only [List.mem_append]; tauto

theorem failure_isSome_iff (env : Env) : (∃ f, failure env = some f) ↔ ¬ AllStepsSucceed env := by
  rw [← failure_eq_none_iff]
  cases failure env <;> simp

theorem main_ret_of_failure (env : Env) (f : Failure) (hf : failure env = some f) :
    (main env).ret = some (-1) := by
  by_cases hne : f = Failure.glfwInit
  · subst hne
    rcases failure_cases env _ hf with ⟨_, h⟩ | ⟨h, _⟩ | ⟨h, _⟩ | ⟨h, _⟩ | ⟨h, _⟩ | ⟨h, _⟩
    · rw [main_glfwInit_fails env h]
    all_goals exact absurd h (by decide)
  · obtain ⟨pre, hm, _⟩ := main_failure env f hf hne
    rw [hm]

/-- C1. For every outcome of the five checked initialization steps and every
script of frames, `main` returns 0 exactly when all five steps succeed and the
render loop ends, and returns -1 exactly when at least one step fails. -/
theorem main_return_code (env : Env) :
    ((main env).ret = some 0 ↔ AllStepsSucceed env ∧ LoopEnds env) ∧
    ((main env).ret = some (-1) ↔ ¬ AllStepsSucceed env) := by
  by_cases h : AllStepsSucceed env
  · have hm := main_success env h
    have he := renderLoop_ended_iff env.closeAtStart env.frames
    by_cases hl : (renderLoop env.closeAtStart env.frames).2 = false
    · rw [if_pos hl] at hm
      have : ¬ LoopEnds env := by
        unfold LoopEnds; rw [← he, hl]; simp
      simp [hm, h, this]
    · rw [if_neg hl] at hm
      have : LoopEnds env := by
        unfold LoopEnds; rw [← he]; simpa using hl
      simp [hm, h, this]
  · obtain ⟨f, hf⟩ := (failure_isSome_iff env).2 h
    have hr := main_ret_of_failure env f hf
    simp [hr, h]

/-! ## Facts about setup calls -/

theorem logged_append (s t : List Call) : logged (s ++ t) = logged s ++ logged t := by
  simp [logged, List.filterMap_append]

theorem logged_of_isSetupCall (pre : List Call) (h : ∀ c ∈ pre, c.isSetupCall = true) :
    logged pre = [] := by
  induction pre with
  | nil => rfl
  | cons c cs ih =>
    have hc := h c (List.mem_cons_self c cs)
    have hcs := ih fun x hx => h x (List.mem_cons_of_mem c hx)
    have hstep : logged (c :: cs) = logged cs := by
      cases c <;> first | rfl | cases hc
    rw [hstep, hcs]

theorem not_mem_of_isSetupCall (pre : List Call) (h : ∀ c ∈ pre, c.isSetupCall = true)
    (x : Call) (hx : x.isSetupCall = false) : x ∉ pre := by
  intro hm
  rw [h x hm] at hx
  exact absurd hx (by decide)

theorem isFrameWork_of_isSetupCall (c : Call) (h : c.isSetupCall = true) :
    c.isFrameWork = false := by
  cases c <;> first | rfl | cases h

/-! ## Failure paths -/

/-- C2. When the vertex or the fragment shader reports a failed compile, and
likewise when any other checked initialization step fails, `main` returns -1
and runs no iteration of the render loop: its trace holds no `glClear`, no
`glDrawArrays`, no `glfwSwapBuffers`, no `glfwPollEvents`, and the loop
condition is never evaluated. -/
theorem failure_runs_no_frame (env : Env)
    (h : env.vertexCompileStatus = GL_FALSE ∨ env.fragmentCompileStatus = GL_FALSE ∨
      env.glfwInit = 0 ∨ env.windowCreated = false ∨ env.gladLoadGL = 0 ∨
      env.linkStatus = GL_FALSE) :
    (main env).ret = some (-1) ∧
    ∀ c ∈ (main env).trace, c.isFrameWork = false ∧ ∀ b, c ≠ Call.glfwWindowShouldClose b := by
  have hn : ¬ AllStepsSucceed env := by
    unfold AllStepsSucceed
    rcases h with h | h | h | h | h | h <;> simp [h]
  obtain ⟨f, hf⟩ := (failure_isSome_iff env).2 hn
  refine ⟨main_ret_of_failure env f hf, ?_⟩
  by_cases hne : f = Failure.glfwInit
  · subst hne
    rcases failure_cases env _ hf with ⟨_, h0⟩ | ⟨h0, _⟩ | ⟨h0, _⟩ | ⟨h0, _⟩ | ⟨h0, _⟩ | ⟨h0, _⟩
    · rw [main_glfwInit_fails env h0]
      intro c hc
      simp only [List.mem_cons, List.mem_singleton, List.not_mem_nil, or_false] at hc
      rcases hc with rfl | rfl <;> exact ⟨rfl, fun b => by simp⟩
    all_goals exact absurd h0 (by decide)
  · obtain ⟨pre, hm, hpre, _⟩ := main_failure env f hf hne
    rw [hm]
    intro c hc
    simp only [List.mem_append, List.mem_cons, List.mem_singleton, List.not_mem_nil,
      or_false] at hc
    rcases hc with hc | rfl | rfl
    · refine ⟨isFrameWork_of_isSetupCall c (hpre c hc), fun b hb => ?_⟩
      subst hb
      cases hpre _ hc
    · exact ⟨rfl, fun b => by simp⟩
    · exact ⟨rfl, fun b => by simp⟩

/-- Witness of C2: the vertex shader of the sample environment fails to
compile. -/
theorem failure_runs_no_frame_witness :
    vertexFailEnv.vertexCompileStatus = GL_FALSE ∧
    (main vertexFailEnv).ret = some (-1) ∧
    ∀ c ∈ (main vertexFailEnv).trace,
      c.isFrameWork = false ∧ ∀ b, c ≠ Call.glfwWindowShouldClose b :=
  ⟨rfl, failure_runs_no_frame vertexFailEnv (Or.inl rfl)⟩

/-- Counterexample to C3 as stated: when `glfwInit` fails, `main` logs its line
and returns -1 without any call of `glfwTerminate`. -/
theorem glfwInit_failure_never_terminates :
    failure initFailEnv = some Failure.glfwInit ∧
    main initFailEnv = ⟨[Call.glfwInit, Call.log "glfw error\n"], some (-1)⟩ ∧
    (main initFailEnv).trace.count Call.glfwTerminate ≠ 1 := by
  have hm : main initFailEnv = ⟨[Call.glfwInit, Call.log "glfw error\n"], some (-1)⟩ :=
    main_glfwInit_fails initFailEnv rfl
  refine ⟨rfl, hm, ?_⟩
  rw [hm]
  simp

/-- C3, amended. In each of the five failure categories `main` returns -1 and
logs exactly one line, the fixed message of the category.  In the four
categories met after `glfwInit` succeeded, `glfwTerminate` is called exactly
once, as the last call, right after the message.  When `glfwInit` itself fails
the trace is `glfwInit` followed by the message, and `glfwTerminate` is not
called. -/
theorem failure_logs_then_terminates (env : Env) (f : Failure) (hf : failure env = some f) :
    (main env).ret = some (-1) ∧
    logged (main env).trace = [f.message] ∧
    (f ≠ Failure.glfwInit →
      (main env).trace.count Call.glfwTerminate = 1 ∧
      ∃ pre, (main env).trace = pre ++ [Call.log f.message, Call.glfwTerminate]) ∧
    (f = Failure.glfwInit →
      (main env).trace = [Call.glfwInit, Call.log f.message] ∧
      (main env).trace.count Call.glfwTerminate = 0) := by
  refine ⟨main_ret_of_failure env f hf, ?_⟩
  by_cases hne : f = Failure.glfwInit
  · subst hne
    rcases failure_cases env _ hf with ⟨_, h0⟩ | ⟨h0, _⟩ | ⟨h0, _⟩ | ⟨h0, _⟩ | ⟨h0, _⟩ | ⟨h0, _⟩
    · rw [main_glfwInit_fails env h0]
      simp [logged, Failure.message]
    all_goals exact absurd h0 (by decide)
  · obtain ⟨pre, hm, hpre, _⟩ := main_failure env f hf hne
    have hl := logged_of_isSetupCall pre hpre
    have ht := not_mem_of_isSetupCall pre hpre Call.glfwTerminate rfl
    rw [hm]
    refine ⟨?_, fun _ => ⟨?_, pre, rfl⟩, fun h => absurd h hne⟩
    · rw [logged_append, hl]; simp [logged]
    · rw [List.count_append, List.count_eq_zero.2 ht]; simp

/-- Witness of C3, amended: the vertex shader of the sample environment fails
to compile. -/
theorem failure_logs_then_terminates_witness :
    failure vertexFailEnv = some Failure.shaderCompile ∧
    (main vertexFailEnv).ret = some (-1) ∧
    logged (main vertexFailEnv).trace = ["cannot compile shader\n"] ∧
    (main vertexFailEnv).trace.count Call.glfwTerminate = 1 :=
  have h := failure_logs_then_terminates vertexFailEnv Failure.shaderCompile rfl
  ⟨rfl, h.1, h.2.1, (h.2.2.1 (by decide)).1⟩

/-! ## The structure of the render loop -/

theorem loopBody_flag (f : Frame) : (loopBody f).2 = true ↔ f.closes := by
  unfold loopBody Frame.closes
  by_cases hq : f.keyQ = GLFW_PRESS <;> simp [hq]

theorem iterationCalls_cons (f : Frame) (fs : List Frame) :
    iterationCalls (f :: fs) =
      Call.glfwWindowShouldClose false :: (loopBody f).1 ++ iterationCalls fs := by
  simp [iterationCalls]

theorem iterationCalls_append (fs gs : List Frame) :
    iterationCalls (fs ++ gs) = iterationCalls fs ++ iterationCalls gs := by
  simp [iterationCalls]

theorem renderLoop_append (pre more : List Frame) (hpre : ∀ g ∈ pre, ¬ g.closes) :
    renderLoop false (pre ++ more) =
      (iterationCalls pre ++ (renderLoop false more).1, (renderLoop false more).2) := by
  induction pre with
  | nil => simp [iterationCalls]
  | cons g gs ih =>
    have hg : (loopBody g).2 = false := by
      have := hpre g (List.mem_cons_self g gs)
      rw [← loopBody_flag] at this
      simpa using this
    have ih2 := ih fun x hx => hpre x (List.mem_cons_of_mem g hx)
    rw [List.cons_append, renderLoop, hg, ih2, iterationCalls_cons]
    simp

theorem renderLoop_shape (c : Bool) (frames : List Frame) :
    ∃ n, n ≤ frames.length ∧
      (renderLoop c frames).1 =
        iterationCalls (frames.take n) ++
          if (renderLoop c frames).2 = true then [Call.glfwWindowShouldClose true] else [] := by
  induction frames generalizing c with
  | nil => cases c <;> exact ⟨0, by simp [renderLoop, iterationCalls]⟩
  | cons f fs ih =>
    cases c with
    | true => exact ⟨0, by simp [renderLoop, iterationCalls]⟩
    | false =>
      obtain ⟨n, hn, h⟩ := ih (loopBody f).2
      refine ⟨n + 1, by simpa using hn, ?_⟩
      rw [renderLoop, List.take_succ_cons, iterationCalls_cons]
      simp only [h, List.cons_append, List.append_assoc]

theorem main_trace_of_loop_ends (env : Env) (hok : AllStepsSucceed env) (hend : LoopEnds env) :
    main env =
      ⟨setupCalls env ++ (renderLoop env.closeAtStart env.frames).1 ++ teardown, some 0⟩ := by
  have he : (renderLoop env.closeAtStart env.frames).2 = true :=
    (renderLoop_ended_iff _ _).2 hend
  rw [main_success env hok, he]
  simp

/-- C4. In an iteration whose key check reports `Q` pressed, the should-close
flag is set by the last call of that iteration and is true when the iteration
ends; the loop condition evaluated next fails, whatever frames would follow,
and the calls of that iteration are followed in the trace by that one
condition check and the teardown, with no further iteration. -/
theorem quit_key_ends_loop (env : Env) (pre : List Frame) (f : Frame) (rest : List Frame)
    (hok : AllStepsSucceed env) (hstart : env.closeAtStart = false)
    (hframes : env.frames = pre ++ f :: rest) (hpre : ∀ g ∈ pre, ¬ g.closes)
    (hq : f.keyQ = GLFW_PRESS) :
    (loopBody f).2 = true ∧
    (loopBody f).1.getLast? = some (Call.glfwSetWindowShouldClose true) ∧
    renderLoop (loopBody f).2 rest = ([Call.glfwWindowShouldClose true], true) ∧
    main env =
      ⟨setupCalls env ++ iterationCalls pre ++
          (Call.glfwWindowShouldClose false :: (loopBody f).1) ++
          [Call.glfwWindowShouldClose true] ++ teardown, some 0⟩ := by
  have hflag : (loopBody f).2 = true := (loopBody_flag f).2 (Or.inr hq)
  have hrest : renderLoop (loopBody f).2 rest = ([Call.glfwWindowShouldClose true], true) := by
    rw [hflag, renderLoop]
  have hloop : renderLoop env.closeAtStart env.frames =
      (iterationCalls pre ++ (Call.glfwWindowShouldClose false :: (loopBody f).1 ++
        [Call.glfwWindowShouldClose true]), true) := by
    rw [hstart, hframes, renderLoop_append pre (f :: rest) hpre, renderLoop, hrest]
  have hend : LoopEnds env :=
    (renderLoop_ended_iff _ _).1 (by rw [hloop])
  refine ⟨hflag, ?_, hrest, ?_⟩
  · simp [loopBody, hq]
  · rw [main_trace_of_loop_ends env hok hend, hloop]
    simp

/-- Witness of C4: an idle frame, then a frame with `Q` held, then a frame
that is never shown. -/
theorem quit_key_ends_loop_witness :
    (loopBody quitFrame).2 = true ∧
    (loopBody quitFrame).1.getLast? = some (Call.glfwSetWindowShouldClose true) ∧
    renderLoop (loopBody quitFrame).2 [idleFrame] = ([Call.glfwWindowShouldClose true], true) ∧
    main (sampleEnv [idleFrame, quitFrame, idleFrame]) =
      ⟨setupCalls (sampleEnv [idleFrame, quitFrame, idleFrame]) ++ iterationCalls [idleFrame] ++
          (Call.glfwWindowShouldClose false :: (loopBody quitFrame).1) ++
          [Call.glfwWindowShouldClose true] ++ teardown, some 0⟩ :=
  quit_key_ends_loop (sampleEnv [idleFrame, quitFrame, idleFrame]) [idleFrame] quitFrame
    [idleFrame] (by decide) rfl rfl (by decide) rfl

/-- C9. The body of every iteration makes these calls in this order, each
once: framebuffer size query, viewport `(0, 0, fbWidth, fbHeight)`, clear of
the color buffer, program bind, vertex array bind, draw of 3 vertices as
triangles, the three GUI new-frame calls, the demo window, GUI render and
draw-data rendering, buffer swap, event poll, and the `Q` key check (followed
by the should-close request exactly when `Q` is pressed).  The trace of the
loop is, for some number of the scripted frames, the condition check and this
body for each of them in turn, then the final failing check if the loop
ended. -/
theorem loop_iteration_order :
    (∀ f : Frame,
      (loopBody f).1 =
        [Call.glfwGetFramebufferSize f.fbWidth f.fbHeight,
         Call.glViewport 0 0 f.fbWidth f.fbHeight,
         Call.glClear GLenum.GL_COLOR_BUFFER_BIT,
         Call.glUseProgram Handle.shaderProgram,
         Call.glBindVertexArray Handle.VAO,
         Call.glDrawArrays GLenum.GL_TRIANGLES 0 3,
         Call.ImGui_ImplOpenGL3_NewFrame,
         Call.ImGui_ImplGlfw_NewFrame,
         Call.ImGui_NewFrame,
         Call.ImGui_ShowDemoWindow,
         Call.ImGui_Render,
         Call.ImGui_GetDrawData,
         Call.ImGui_ImplOpenGL3_RenderDrawData,
         Call.glfwSwapBuffers,
         Call.glfwPollEvents,
         Call.glfwGetKey GLFWenum.GLFW_KEY_Q f.keyQ] ++
        (if f.keyQ = GLFW_PRESS then [Call.glfwSetWindowShouldClose true] else []) ∧
      (loopBody f).1.Nodup) ∧
    (∀ (c : Bool) (frames : List Frame), ∃ n, n ≤ frames.length ∧
      (renderLoop c frames).1 =
        (frames.take n).flatMap
            (fun f => Call.glfwWindowShouldClose false :: (loopBody f).1) ++
          if (renderLoop c frames).2 = true then [Call.glfwWindowShouldClose true] else []) ∧
    (∀ env : Env, AllStepsSucceed env →
      (main env).trace =
        setupCalls env ++ (renderLoop env.closeAtStart env.frames).1 ++
          if (renderLoop env.closeAtStart env.frames).2 = true then teardown else []) := by
  refine ⟨fun f => ?_, fun c frames => renderLoop_shape c frames, fun env hok => ?_⟩
  · by_cases hq : f.keyQ = GLFW_PRESS <;> simp [loopBody, hq]
  · rw [main_success env hok]
    by_cases he : (renderLoop env.closeAtStart env.frames).2 = true <;> simp [he]

/-- Witness of C9: the trace of the sample run that quits on its first frame
is the setup, the loop and the teardown. -/
theorem loop_iteration_order_witness :
    AllStepsSucceed (sampleEnv [quitFrame]) ∧
    (main (sampleEnv [quitFrame])).trace =
      setupCalls (sampleEnv [quitFrame]) ++
        (renderLoop (sampleEnv [quitFrame]).closeAtStart (sampleEnv [quitFrame]).frames).1 ++
        if (renderLoop (sampleEnv [quitFrame]).closeAtStart
            (sampleEnv [quitFrame]).frames).2 = true then teardown else [] :=
  ⟨by decide, loop_iteration_order.2.2 (sampleEnv [quitFrame]) (by decide)⟩

/-! ## Teardown -/

theorem not_mem_renderLoop (c : Bool) (frames : List Frame) (x : Call)
    (hx : x.isLoopCall = false) : x ∉ (renderLoop c frames).1 := by
  intro hm
  rw [renderLoop_isLoopCall c frames x hm] at hx
  cases hx

theorem deleted_of_isLoopCall (c : Call) (h : c.isLoopCall = true) : c.deleted = none := by
  cases c <;> first | rfl | cases h

theorem filterMap_deleted_renderLoop (c : Bool) (frames : List Frame) :
    (renderLoop c frames).1.filterMap Call.deleted = [] := by
  rw [List.filterMap_eq_nil_iff]
  intro x hx
  exact deleted_of_isLoopCall x (renderLoop_isLoopCall c frames x hx)

theorem filterMap_deleted_setupCalls (env : Env) :
    (setupCalls env).filterMap Call.deleted = [Handle.vertexShader, Handle.fragmentShader] := by
  cases ha : env.apple <;>
    simp only [setupCalls, windowCalls, ha, if_true, if_false, Bool.false_eq_true] <;> rfl

theorem count_teardown_call (env : Env) (x : Call) (hx : x ∈ teardown) :
    (setupCalls env ++ (renderLoop env.closeAtStart env.frames).1 ++ teardown).count x = 1 := by
  have hs : x.isSetupCall = false ∧ x.isLoopCall = false := by
    simp only [teardown, List.mem_cons, List.mem_singleton, List.not_mem_nil, or_false] at hx
    rcases hx with rfl | rfl | rfl | rfl | rfl | rfl | rfl <;> exact ⟨rfl, rfl⟩
  have h1 : (setupCalls env).count x = 0 :=
    List.count_eq_zero.2 (not_mem_of_isSetupCall _ (setupCalls_isSetupCall env) x hs.1)
  have h2 : ((renderLoop env.closeAtStart env.frames).1).count x = 0 :=
    List.count_eq_zero.2 (not_mem_renderLoop _ _ x hs.2)
  have h3 : teardown.count x = 1 := by
    simp only [teardown, List.mem_cons, List.mem_singleton, List.not_mem_nil, or_false] at hx
    rcases hx with rfl | rfl | rfl | rfl | rfl | rfl | rfl <;> simp [teardown]
  rw [List.count_append, List.count_append, h1, h2, h3]

/-- C5. Whenever every checked step succeeds and the loop ends (by a close
request, by the quit key, or because should-close is already set when the loop
is reached), `main` returns 0 and its trace ends with the seven teardown
calls in this order: GUI rendering-backend shutdown, GUI windowing-backend
shutdown, GUI context destruction, deletion of the program, of the vertex
buffer, of the vertex array, and `glfwTerminate`.  Each of the seven occurs
exactly once in the whole trace, and over the whole run each of the five
handles is deleted exactly once. -/
theorem teardown_once_in_order (env : Env) (hok : AllStepsSucceed env) (hend : LoopEnds env) :
    (main env).ret = some 0 ∧
    (∃ pre, (main env).trace = pre ++
      [Call.ImGui_ImplOpenGL3_Shutdown,
       Call.ImGui_ImplGlfw_Shutdown,
       Call.ImGui_DestroyContext,
       Call.glDeleteProgram Handle.shaderProgram,
       Call.glDeleteBuffers 1 Handle.VBO,
       Call.glDeleteVertexArrays 1 Handle.VAO,
       Call.glfwTerminate]) ∧
    (∀ c ∈ [Call.ImGui_ImplOpenGL3_Shutdown,
       Call.ImGui_ImplGlfw_Shutdown,
       Call.ImGui_DestroyContext,
       Call.glDeleteProgram Handle.shaderProgram,
       Call.glDeleteBuffers 1 Handle.VBO,
       Call.glDeleteVertexArrays 1 Handle.VAO,
       Call.glfwTerminate], (main env).trace.count c = 1) ∧
    (main env).trace.filterMap Call.deleted =
      [Handle.vertexShader, Handle.fragmentShader, Handle.shaderProgram, Handle.VBO,
       Handle.VAO] := by
  rw [main_trace_of_loop_ends env hok hend]
  refine ⟨rfl, ⟨_, rfl⟩, fun c hc => count_teardown_call env c hc, ?_⟩
  simp only [List.filterMap_append, filterMap_deleted_setupCalls,
    filterMap_deleted_renderLoop]
  rfl

/-- Witness of C5: the close button of the window is clicked during the second
frame. -/
theorem teardown_once_in_order_witness :
    AllStepsSucceed (sampleEnv [idleFrame, closeFrame]) ∧
    LoopEnds (sampleEnv [idleFrame, closeFrame]) ∧
    (main (sampleEnv [idleFrame, closeFrame])).ret = some 0 ∧
    (main (sampleEnv [idleFrame, closeFrame])).trace.count Call.glfwTerminate = 1 ∧
    (main (sampleEnv [idleFrame, closeFrame])).trace.filterMap Call.deleted =
      [Handle.vertexShader, Handle.fragmentShader, Handle.shaderProgram, Handle.VBO,
       Handle.VAO] :=
  have h := teardown_once_in_order (sampleEnv [idleFrame, closeFrame]) (by decide) (by decide)
  ⟨by decide, by decide, h.1, h.2.2.1 Call.glfwTerminate (by simp), h.2.2.2⟩

/-! ## Order of acquisition and release -/

theorem indexOf_acquire (env : Env) (R : Resource) :
    (setupCalls env).indexOf R.acquire =
      match R with
      | Resource.windowingLibrary => 0
      | Resource.guiContext => (if env.apple then 1 else 0) + 14
      | Resource.guiWindowBackend => (if env.apple then 1 else 0) + 16
      | Resource.guiRenderBackend => (if env.apple then 1 else 0) + 17
      | Resource.pipelineProgram => (if env.apple then 1 else 0) + 26
      | Resource.vertexArray => (if env.apple then 1 else 0) + 33
      | Resource.vertexBuffer => (if env.apple then 1 else 0) + 34 := by
  cases ha : env.apple <;> cases R <;>
    simp only [setupCalls, windowCalls, ha, if_true, if_false, Bool.false_eq_true] <;> rfl

theorem indexOf_release (R : Resource) :
    teardown.indexOf R.release =
      match R with
      | Resource.guiRenderBackend => 0
      | Resource.guiWindowBackend => 1
      | Resource.guiContext => 2
      | Resource.pipelineProgram => 3
      | Resource.vertexBuffer => 4
      | Resource.vertexArray => 5
      | Resource.windowingLibrary => 6 := by
  cases R <;> rfl

theorem length_setupCalls (env : Env) :
    (setupCalls env).length = (if env.apple then 1 else 0) + 41 := by
  cases ha : env.apple <;>
    simp only [setupCalls, windowCalls, ha, if_true, if_false, Bool.false_eq_true] <;> rfl

theorem acquire_mem_setupCalls (env : Env) (R : Resource) : R.acquire ∈ setupCalls env := by
  rw [← List.indexOf_lt_length, indexOf_acquire, length_setupCalls]
  cases R <;> simp

theorem release_mem_teardown (R : Resource) : R.release ∈ teardown := by
  rw [← List.indexOf_lt_length, indexOf_release]
  cases R <;> simp [teardown]

theorem release_not_mem_before_teardown (env : Env) (R : Resource) :
    R.release ∉ setupCalls env ++ (renderLoop env.closeAtStart env.frames).1 := by
  have hs : R.release.isSetupCall = false ∧ R.release.isLoopCall = false := by
    cases R <;> exact ⟨rfl, rfl⟩
  intro hm
  rcases List.mem_append.1 hm with h | h
  · exact not_mem_of_isSetupCall _ (setupCalls_isSetupCall env) _ hs.1 h
  · exact not_mem_renderLoop _ _ _ hs.2 h

theorem indexOf_acquire_trace (env : Env) (R : Resource) :
    (setupCalls env ++ (renderLoop env.closeAtStart env.frames).1 ++ teardown).indexOf
        R.acquire = (setupCalls env).indexOf R.acquire := by
  rw [List.append_assoc, List.indexOf_append_of_mem (acquire_mem_setupCalls env R)]

theorem indexOf_release_trace (env : Env) (R : Resource) :
    (setupCalls env ++ (renderLoop env.closeAtStart env.frames).1 ++ teardown).indexOf
        R.release =
      (setupCalls env ++ (renderLoop env.closeAtStart env.frames).1).length +
        teardown.indexOf R.release := by
  rw [List.indexOf_append_of_not_mem (release_not_mem_before_teardown env R)]

/-- Counterexample to C6 as stated: in the run that quits on its first frame
the GUI context is acquired before the pipeline program, yet the program is
not released before the GUI context (it is released after it). -/
theorem program_released_after_gui_context :
    Before (main (sampleEnv [quitFrame])).trace
      Resource.guiContext.acquire Resource.pipelineProgram.acquire ∧
    ¬ Before (main (sampleEnv [quitFrame])).trace
      Resource.pipelineProgram.release Resource.guiContext.release := by
  have hm := main_trace_of_loop_ends (sampleEnv [quitFrame]) (by decide) (by decide)
  have ha1 := indexOf_acquire_trace (sampleEnv [quitFrame]) Resource.guiContext
  have ha2 := indexOf_acquire_trace (sampleEnv [quitFrame]) Resource.pipelineProgram
  have hr1 := indexOf_release_trace (sampleEnv [quitFrame]) Resource.guiContext
  have hr2 := indexOf_release_trace (sampleEnv [quitFrame]) Resource.pipelineProgram
  rw [indexOf_acquire] at ha1 ha2
  rw [indexOf_release] at hr1 hr2
  have hmem1 := acquire_mem_setupCalls (sampleEnv [quitFrame]) Resource.guiContext
  have hmem2 := acquire_mem_setupCalls (sampleEnv [quitFrame]) Resource.pipelineProgram
  rw [hm]
  unfold Before
  refine ⟨⟨?_, ?_, ?_⟩, ?_⟩
  · simp only [List.mem_append]; tauto
  · simp only [List.mem_append]; tauto
  · rw [ha1, ha2]; simp
  · rw [hr1, hr2]; simp

/-- C6, amended. On loop exit, for two resources with `A` acquired before `B`,
`B` is released before `A` exactly in these cases: `A` is the windowing
library (acquired first, released last); `A` and `B` are both GUI resources
(context, windowing backend, rendering backend: released in reverse order of
acquisition); `A` is the vertex array and `B` the vertex buffer.  In every
other case the release follows the acquisition order: the GUI resources are
released before the program, the vertex buffer and the vertex array, and the
program before the vertex buffer and the vertex array. -/
theorem release_order (env : Env) (hok : AllStepsSucceed env) (hend : LoopEnds env)
    (A B : Resource) (hacq : Before (main env).trace A.acquire B.acquire) :
    Before (main env).trace B.release A.release ↔
      (A = Resource.windowingLibrary ∨ (A.isGui = true ∧ B.isGui = true) ∨
        (A = Resource.vertexArray ∧ B = Resource.vertexBuffer)) := by
  rw [main_trace_of_loop_ends env hok hend] at hacq ⊢
  unfold Before at hacq ⊢
  have hA := List.mem_append_right
    (setupCalls env ++ (renderLoop env.closeAtStart env.frames).1) (release_mem_teardown A)
  have hB := List.mem_append_right
    (setupCalls env ++ (renderLoop env.closeAtStart env.frames).1) (release_mem_teardown B)
  obtain ⟨_, _, hlt⟩ := hacq
  rw [indexOf_acquire_trace, indexOf_acquire_trace, indexOf_acquire, indexOf_acquire] at hlt
  rw [indexOf_release_trace, indexOf_release_trace, indexOf_release, indexOf_release]
  simp only [hA, hB, true_and]
  cases A <;> cases B <;> simp [Resource.isGui] at hlt ⊢

/-- Witness of C6, amended: the vertex array is acquired before the vertex
buffer and released after it. -/
theorem release_order_witness :
    Before (main (sampleEnv [quitFrame])).trace
      Resource.vertexArray.acquire Resource.vertexBuffer.acquire ∧
    Before (main (sampleEnv [quitFrame])).trace
      Resource.vertexBuffer.release Resource.vertexArray.release :=
  have hacq : Before (main (sampleEnv [quitFrame])).trace
      Resource.vertexArray.acquire Resource.vertexBuffer.acquire := by
    rw [main_trace_of_loop_ends (sampleEnv [quitFrame]) (by decide) (by decide)]
    refine ⟨?_, ?_, ?_⟩
    · exact List.mem_append_left _ (List.mem_append_left _ (acquire_mem_setupCalls _ _))
    · exact List.mem_append_left _ (List.mem_append_left _ (acquire_mem_setupCalls _ _))
    · rw [indexOf_acquire_trace, indexOf_acquire_trace, indexOf_acquire, indexOf_acquire]
      simp
  ⟨hacq, (release_order (sampleEnv [quitFrame]) (by decide) (by decide)
    Resource.vertexArray Resource.vertexBuffer hacq).2 (Or.inr (Or.inr ⟨rfl, rfl⟩))⟩

/-! ## GUI release and termination -/

theorem main_ret_zero (env : Env) (h : (main env).ret = some 0) :
    AllStepsSucceed env ∧ LoopEnds env := by
  by_cases hok : AllStepsSucceed env
  · refine ⟨hok, ?_⟩
    have hm := main_success env hok
    by_cases hl : (renderLoop env.closeAtStart env.frames).2 = false
    · rw [if_pos hl] at hm
      rw [hm] at h
      cases h
    · exact (renderLoop_ended_iff _ _).1 (by simpa using hl)
  · obtain ⟨f, hf⟩ := (failure_isSome_iff env).2 hok
    rw [main_ret_of_failure env f hf] at h
    cases h

/-- Counterexample to C8 as stated: when the vertex shader fails to compile,
`glfwTerminate` is called after the GUI was initialized, and none of the three
GUI releases occurs before it (none occurs at all). -/
theorem gui_not_released_on_compile_failure :
    Before (main vertexFailEnv).trace Call.ImGui_ImplOpenGL3_Init Call.glfwTerminate ∧
    ¬ Before (main vertexFailEnv).trace Call.ImGui_ImplOpenGL3_Shutdown Call.glfwTerminate ∧
    ¬ Before (main vertexFailEnv).trace Call.ImGui_ImplGlfw_Shutdown Call.glfwTerminate ∧
    ¬ Before (main vertexFailEnv).trace Call.ImGui_DestroyContext Call.glfwTerminate := by
  rw [main_vertexCompile_fails vertexFailEnv (by decide) rfl (by decide) rfl]
  simp [Before, windowCalls, contextCalls, guiCalls, vertexShaderCalls, vertexFailEnv,
    sampleEnv, List.indexOf_cons]

/-- C8, amended. On the path on which `main` returns 0, the GUI rendering-
backend shutdown, the GUI windowing-backend shutdown and the GUI context
destruction all occur before `glfwTerminate`.  On the paths that fail after
the GUI was initialized (a shader compile or the program link fails),
`glfwTerminate` is called after the GUI initialization and no GUI release is
made. -/
theorem gui_released_before_terminate (env : Env) :
    ((main env).ret = some 0 →
      Before (main env).trace Call.ImGui_ImplOpenGL3_Shutdown Call.glfwTerminate ∧
      Before (main env).trace Call.ImGui_ImplGlfw_Shutdown Call.glfwTerminate ∧
      Before (main env).trace Call.ImGui_DestroyContext Call.glfwTerminate) ∧
    ((failure env = some Failure.shaderCompile ∨ failure env = some Failure.programLink) →
      Before (main env).trace Call.ImGui_ImplOpenGL3_Init Call.glfwTerminate ∧
      Call.ImGui_ImplOpenGL3_Shutdown ∉ (main env).trace ∧
      Call.ImGui_ImplGlfw_Shutdown ∉ (main env).trace ∧
      Call.ImGui_DestroyContext ∉ (main env).trace) := by
  constructor
  · intro h
    obtain ⟨hok, hend⟩ := main_ret_zero env h
    rw [main_trace_of_loop_ends env hok hend]
    have key : ∀ R : Resource, R ≠ Resource.windowingLibrary →
        Before (setupCalls env ++ (renderLoop env.closeAtStart env.frames).1 ++ teardown)
          R.release Call.glfwTerminate := by
      intro R hR
      refine ⟨List.mem_append_right _ (release_mem_teardown R),
        List.mem_append_right _ (release_mem_teardown Resource.windowingLibrary), ?_⟩
      have h1 := indexOf_release_trace env R
      have h2 := indexOf_release_trace env Resource.windowingLibrary
      rw [indexOf_release] at h1 h2
      simp only [Resource.release] at h2
      rw [h1, h2]
      cases R <;> simp at hR ⊢
    exact ⟨key Resource.guiRenderBackend (by decide), key Resource.guiWindowBackend (by decide),
      key Resource.guiContext (by decide)⟩
  · intro h
    have hx : ∃ f, failure env = some f ∧ f ≠ Failure.glfwInit ∧
        (f = Failure.shaderCompile ∨ f = Failure.programLink) := by
      rcases h with h | h
      · exact ⟨_, h, by decide, Or.inl rfl⟩
      · exact ⟨_, h, by decide, Or.inr rfl⟩
    obtain ⟨f, hf, hne, hcat⟩ := hx
    obtain ⟨pre, hm, hpre, hgui⟩ := main_failure env f hf hne
    have hinit : Call.ImGui_ImplOpenGL3_Init ∈ pre := hgui hcat _ (by simp [guiCalls])
    have hterm : Call.glfwTerminate ∉ pre := not_mem_of_isSetupCall pre hpre _ rfl
    rw [hm]
    refine ⟨⟨List.mem_append_left _ hinit, by simp, ?_⟩, ?_, ?_, ?_⟩
    · rw [List.indexOf_append_of_mem hinit, List.indexOf_append_of_not_mem hterm]
      have := List.indexOf_lt_length.2 hinit
      omega
    · intro hc
      rcases List.mem_append.1 hc with hc | hc
      · exact not_mem_of_isSetupCall pre hpre Call.ImGui_ImplOpenGL3_Shutdown rfl hc
      · simp at hc
    · intro hc
      rcases List.mem_append.1 hc with hc | hc
      · exact not_mem_of_isSetupCall pre hpre Call.ImGui_ImplGlfw_Shutdown rfl hc
      · simp at hc
    · intro hc
      rcases List.mem_append.1 hc with hc | hc
      · exact not_mem_of_isSetupCall pre hpre Call.ImGui_DestroyContext rfl hc
      · simp at hc

/-- Witness of C8, amended: a run that quits on its first frame, and a run
whose vertex shader fails to compile. -/
theorem gui_released_before_terminate_witness :
    ((main (sampleEnv [quitFrame])).ret = some 0 ∧
      Before (main (sampleEnv [quitFrame])).trace Call.ImGui_ImplOpenGL3_Shutdown
        Call.glfwTerminate ∧
      Before (main (sampleEnv [quitFrame])).trace Call.ImGui_ImplGlfw_Shutdown
        Call.glfwTerminate ∧
      Before (main (sampleEnv [quitFrame])).trace Call.ImGui_DestroyContext
        Call.glfwTerminate) ∧
    (failure vertexFailEnv = some Failure.shaderCompile ∧
      Before (main vertexFailEnv).trace Call.ImGui_ImplOpenGL3_Init Call.glfwTerminate ∧
      Call.ImGui_ImplOpenGL3_Shutdown ∉ (main vertexFailEnv).trace ∧
      Call.ImGui_ImplGlfw_Shutdown ∉ (main vertexFailEnv).trace ∧
      Call.ImGui_DestroyContext ∉ (main vertexFailEnv).trace) :=
  have h0 : (main (sampleEnv [quitFrame])).ret = some 0 := by
    rw [main_trace_of_loop_ends (sampleEnv [quitFrame]) (by decide) (by decide)]
  ⟨⟨h0, (gui_released_before_terminate (sampleEnv [quitFrame])).1 h0⟩,
   ⟨rfl, (gui_released_before_terminate vertexFailEnv).2 (Or.inl rfl)⟩⟩

/-! ## Window size and position -/

theorem wrapInt32_of_isInt32 (x : Int) (h : IsInt32 x) : wrapInt32 x = x := by
  unfold IsInt32 at h
  unfold wrapInt32
  omega

theorem tdiv_two_bounds (a : Int) :
    (0 ≤ a → 2 * a.tdiv 2 ≤ a ∧ a ≤ 2 * a.tdiv 2 + 1) ∧
    (a < 0 → 2 * a.tdiv 2 - 1 ≤ a ∧ a ≤ 2 * a.tdiv 2) := by
  constructor
  · intro h
    rw [Int.tdiv_eq_ediv h (by decide)]
    omega
  · intro h
    have h2 : (-a).tdiv 2 = (-a) / 2 := Int.tdiv_eq_ediv (by omega) (by decide)
    rw [Int.neg_tdiv] at h2
    omega

theorem window_arith (vm : VideoMode)
    (hW : 0 ≤ vm.width ∧ vm.width < 2^31) (hH : 0 ≤ vm.height ∧ vm.height < 2^31) :
    intDiv (screenHeight vm) 2 = vm.height.tdiv 2 ∧
    windowPosX vm = (vm.width - vm.height.tdiv 2).tdiv 2 ∧
    windowPosY vm = (vm.height - vm.height.tdiv 2).tdiv 2 := by
  have hh := (tdiv_two_bounds vm.height).1 hH.1
  have hx := tdiv_two_bounds (vm.width - vm.height.tdiv 2)
  have hy := tdiv_two_bounds (vm.height - vm.height.tdiv 2)
  have e1 : intDiv (screenHeight vm) 2 = vm.height.tdiv 2 := by
    unfold intDiv screenHeight
    exact wrapInt32_of_isInt32 _ (by unfold IsInt32; omega)
  have e2 : intSub vm.width (vm.height.tdiv 2) = vm.width - vm.height.tdiv 2 := by
    unfold intSub
    exact wrapInt32_of_isInt32 _ (by unfold IsInt32; omega)
  have e3 : intSub vm.height (vm.height.tdiv 2) = vm.height - vm.height.tdiv 2 := by
    unfold intSub
    exact wrapInt32_of_isInt32 _ (by unfold IsInt32; omega)
  refine ⟨e1, ?_, ?_⟩
  · unfold windowPosX windowWidth screenWidth
    rw [e1, e2]
    unfold intDiv
    exact wrapInt32_of_isInt32 _ (by unfold IsInt32; omega)
  · unfold windowPosY windowHeight
    rw [e1]
    unfold screenHeight
    rw [e3]
    unfold intDiv
    exact wrapInt32_of_isInt32 _ (by unfold IsInt32; omega)

theorem main_trace_windowCalls (env : Env) (h1 : env.glfwInit ≠ 0) :
    ∃ post, (main env).trace = windowCalls env ++ post := by
  by_cases hok : AllStepsSucceed env
  · rw [main_success env hok]
    by_cases hl : (renderLoop env.closeAtStart env.frames).2 = false
    · rw [if_pos hl]; simp only [setupCalls, List.append_assoc]; exact ⟨_, rfl⟩
    · rw [if_neg hl]; simp only [setupCalls, List.append_assoc]; exact ⟨_, rfl⟩
  · obtain ⟨f, hf⟩ := (failure_isSome_iff env).2 hok
    rcases failure_cases env f hf with ⟨_, h⟩ | ⟨_, h1, h2⟩ | ⟨_, h1, h2, h3⟩ |
      ⟨_, h1, h2, h3, h4⟩ | ⟨_, h1, h2, h3, h4, h5⟩ | ⟨_, h1, h2, h3, h4, h5, h6⟩
    · exact absurd h h1
    · rw [main_createWindow_fails env h1 h2]; exact ⟨_, rfl⟩
    · rw [main_gladLoadGL_fails env h1 h2 h3]; simp only [List.append_assoc]; exact ⟨_, rfl⟩
    · rw [main_vertexCompile_fails env h1 h2 h3 h4]
      simp only [List.append_assoc]; exact ⟨_, rfl⟩
    · rw [main_fragmentCompile_fails env h1 h2 h3 h4 h5]
      simp only [List.append_assoc]; exact ⟨_, rfl⟩
    · rw [main_link_fails env h1 h2 h3 h4 h5 h6]
      simp only [List.append_assoc]; exact ⟨_, rfl⟩

theorem main_trace_contextCalls (env : Env) (h1 : env.glfwInit ≠ 0)
    (h2 : env.windowCreated = true) :
    ∃ post, (main env).trace = windowCalls env ++ contextCalls env ++ post := by
  by_cases hok : AllStepsSucceed env
  · rw [main_success env hok]
    by_cases hl : (renderLoop env.closeAtStart env.frames).2 = false
    · rw [if_pos hl]; simp only [setupCalls, List.append_assoc]; exact ⟨_, rfl⟩
    · rw [if_neg hl]; simp only [setupCalls, List.append_assoc]; exact ⟨_, rfl⟩
  · obtain ⟨f, hf⟩ := (failure_isSome_iff env).2 hok
    rcases failure_cases env f hf with ⟨_, h⟩ | ⟨_, _, h⟩ | ⟨_, h1, h2, h3⟩ |
      ⟨_, h1, h2, h3, h4⟩ | ⟨_, h1, h2, h3, h4, h5⟩ | ⟨_, h1, h2, h3, h4, h5, h6⟩
    · exact absurd h h1
    · rw [h2] at h; cases h
    · rw [main_gladLoadGL_fails env h1 h2 h3]; simp only [List.append_assoc]; exact ⟨_, rfl⟩
    · rw [main_vertexCompile_fails env h1 h2 h3 h4]
      simp only [List.append_assoc]; exact ⟨_, rfl⟩
    · rw [main_fragmentCompile_fails env h1 h2 h3 h4 h5]
      simp only [List.append_assoc]; exact ⟨_, rfl⟩
    · rw [main_link_fails env h1 h2 h3 h4 h5 h6]
      simp only [List.append_assoc]; exact ⟨_, rfl⟩

/-- C7. For a video mode of non-negative width `W` and height `H` (C `int`s),
once `glfwInit` has succeeded the window is requested with width and height
`H / 2`; when it is created it is positioned at
`((W - H / 2) / 2, (H - H / 2) / 2)` and the next call locks the aspect ratio
to 1:1 (`/` is C division, truncating toward zero).  The position centers the
window: the left and right margins differ by at most 1, and so do the top and
bottom margins. -/
theorem window_centered (env : Env)
    (hW : 0 ≤ env.videoMode.width ∧ env.videoMode.width < 2^31)
    (hH : 0 ≤ env.videoMode.height ∧ env.videoMode.height < 2^31)
    (hinit : env.glfwInit ≠ 0) :
    Call.glfwCreateWindow (env.videoMode.height.tdiv 2) (env.videoMode.height.tdiv 2)
      "OpenGL + GLFW" ∈ (main env).trace ∧
    (env.windowCreated = true → ∃ pre post, (main env).trace = pre ++
      [Call.glfwCreateWindow (env.videoMode.height.tdiv 2) (env.videoMode.height.tdiv 2)
         "OpenGL + GLFW",
       Call.glfwCreateStandardCursor GLFWenum.GLFW_ARROW_CURSOR,
       Call.glfwSetCursor,
       Call.glfwSetWindowPos
         ((env.videoMode.width - env.videoMode.height.tdiv 2).tdiv 2)
         ((env.videoMode.height - env.videoMode.height.tdiv 2).tdiv 2),
       Call.glfwSetWindowAspectRatio 1 1] ++ post) ∧
    |(env.videoMode.width - env.videoMode.height.tdiv 2 -
        (env.videoMode.width - env.videoMode.height.tdiv 2).tdiv 2) -
      (env.videoMode.width - env.videoMode.height.tdiv 2).tdiv 2| ≤ 1 ∧
    |(env.videoMode.height - env.videoMode.height.tdiv 2 -
        (env.videoMode.height - env.videoMode.height.tdiv 2).tdiv 2) -
      (env.videoMode.height - env.videoMode.height.tdiv 2).tdiv 2| ≤ 1 := by
  obtain ⟨e1, e2, e3⟩ := window_arith env.videoMode hW hH
  refine ⟨?_, ?_, ?_, ?_⟩
  · obtain ⟨post, hp⟩ := main_trace_windowCalls env hinit
    rw [hp, ← e1]
    cases ha : env.apple <;> simp [windowCalls, ha]
  · intro hwin
    obtain ⟨post, hp⟩ := main_trace_contextCalls env hinit hwin
    rw [hp, ← e2, ← e3, ← e1]
    refine ⟨(windowCalls env).dropLast,
      [Call.glfwMakeContextCurrent, Call.gladLoadGL] ++ post, ?_⟩
    cases ha : env.apple <;> simp [windowCalls, contextCalls, ha]
  · have hx := tdiv_two_bounds (env.videoMode.width - env.videoMode.height.tdiv 2)
    rw [abs_le]
    omega
  · have hy := tdiv_two_bounds (env.videoMode.height - env.videoMode.height.tdiv 2)
    rw [abs_le]
    omega

/-- Witness of C7: a 1920x1080 monitor gives a 540x540 window at (690, 270). -/
theorem window_centered_witness :
    Call.glfwCreateWindow 540 540 "OpenGL + GLFW" ∈ (main (sampleEnv [])).trace ∧
    (∃ pre post, (main (sampleEnv [])).trace = pre ++
      [Call.glfwCreateWindow 540 540 "OpenGL + GLFW",
       Call.glfwCreateStandardCursor GLFWenum.GLFW_ARROW_CURSOR,
       Call.glfwSetCursor,
       Call.glfwSetWindowPos 690 270,
       Call.glfwSetWindowAspectRatio 1 1] ++ post) :=
  have h := window_centered (sampleEnv []) (by decide) (by decide) (by decide)
  ⟨h.1, h.2.1 rfl⟩

/-! ## Geometry upload and vertex fetch -/

theorem renderLoop_forall (P : Call → Prop) (hcheck : ∀ b, P (Call.glfwWindowShouldClose b))
    (hbody : ∀ f : Frame, ∀ x ∈ (loopBody f).1, P x) (c : Bool) (frames : List Frame) :
    ∀ x ∈ (renderLoop c frames).1, P x := by
  induction frames generalizing c with
  | nil => cases c <;> simp [renderLoop, hcheck]
  | cons f fs ih =>
    cases c with
    | true => simp [renderLoop, hcheck]
    | false =>
      intro x hx
      rw [renderLoop] at hx
      simp only [List.mem_cons, List.mem_append] at hx
      rcases hx with (h | h) | h
      · subst h; exact hcheck false
      · exact hbody f x h
      · exact ih _ x h

theorem uploads_renderLoop (c : Bool) (frames : List Frame) :
    uploads (renderLoop c frames).1 = [] := by
  unfold uploads
  rw [List.filterMap_eq_nil_iff]
  intro x hx
  have h := renderLoop_isLoopCall c frames x hx
  cases x <;> first | rfl | cases h

theorem attribLayouts_renderLoop (c : Bool) (frames : List Frame) :
    attribLayouts (renderLoop c frames).1 = [] := by
  unfold attribLayouts
  rw [List.filterMap_eq_nil_iff]
  intro x hx
  have h := renderLoop_isLoopCall c frames x hx
  cases x <;> first | rfl | cases h

theorem drawRanges_renderLoop (c : Bool) (frames : List Frame) :
    ∀ r ∈ drawRanges (renderLoop c frames).1, r = (0, 3) := by
  intro r hr
  unfold drawRanges at hr
  rw [List.mem_filterMap] at hr
  obtain ⟨x, hx, hxr⟩ := hr
  have hP := renderLoop_forall
    (fun x => ∀ m a b, x = Call.glDrawArrays m a b → (a, b) = (0, 3))
    (fun _ _ _ _ h => by cases h)
    (fun f x hx m a b h => by
      subst h
      unfold loopBody at hx
      by_cases hq : f.keyQ = GLFW_PRESS <;> simp [hq] at hx <;> simp [hx])
    c frames x hx
  cases x <;> simp at hxr
  rename_i m a b
  rw [← hxr]
  exact hP m a b rfl

theorem uploads_trace (env : Env) (hok : AllStepsSucceed env) :
    uploads (main env).trace = [(36, triangleVertices)] ∧
    attribLayouts (main env).trace = [⟨0, 2, 12, 0⟩] ∧
    ∀ r ∈ drawRanges (main env).trace, r = (0, 3) := by
  have hu : uploads (setupCalls env) = [(36, triangleVertices)] := by
    cases ha : env.apple <;>
      simp only [setupCalls, windowCalls, ha, if_true, if_false, Bool.false_eq_true] <;> rfl
  have hl : attribLayouts (setupCalls env) = [⟨0, 2, 12, 0⟩] := by
    cases ha : env.apple <;>
      simp only [setupCalls, windowCalls, ha, if_true, if_false, Bool.false_eq_true] <;> rfl
  have hd : drawRanges (setupCalls env) = [] := by
    cases ha : env.apple <;>
      simp only [setupCalls, windowCalls, ha, if_true, if_false, Bool.false_eq_true] <;> rfl
  have hu2 := uploads_renderLoop env.closeAtStart env.frames
  have hl2 := attribLayouts_renderLoop env.closeAtStart env.frames
  have hd2 := drawRanges_renderLoop env.closeAtStart env.frames
  unfold uploads at hu hu2 ⊢
  unfold attribLayouts at hl hl2 ⊢
  unfold drawRanges at hd hd2 ⊢
  rw [main_success env hok]
  by_cases he : (renderLoop env.closeAtStart env.frames).2 = false
  · rw [if_pos he]
    simp only [List.filterMap_append, hu, hu2, hl, hl2, hd, List.append_nil, List.nil_append,
      true_and]
    exact hd2
  · rw [if_neg he]
    simp only [List.filterMap_append, hu, hu2, hl, hl2, hd, List.append_nil, List.nil_append]
    refine ⟨by simp [teardown], by simp [teardown], ?_⟩
    intro r hr
    rw [List.mem_append] at hr
    rcases hr with hr | hr
    · exact hd2 r hr
    · simp [teardown] at hr

/-- C10. On every run that passes the checked steps, exactly one buffer store
is uploaded: 36 bytes holding the 9 floats -0.5, -0.5, 0.0, 0.5, -0.5, 0.0,
0.0, 0.5, 0.0 in that order; exactly one attribute layout is set (slot 0, 2
float components, stride 12 bytes, offset 0); and every draw covers vertices
0, 1, 2.  Under that layout component `c < 2` of vertex `i < 3` is read at
byte `4 * (3 * i + c)`, inside the 36 bytes, and is element `3 * i + c` of the
data, so the positions read are (-0.5, -0.5), (0.5, -0.5), (0.0, 0.5); no read
touches the bytes of a third float, element `3 * j + 2`. -/
theorem vertex_fetch (env : Env) (hok : AllStepsSucceed env) :
    uploads (main env).trace =
      [(36, [(-1/2 : Rat), -1/2, 0, 1/2, -1/2, 0, 0, 1/2, 0])] ∧
    attribLayouts (main env).trace = [⟨0, 2, 12, 0⟩] ∧
    (∀ r ∈ drawRanges (main env).trace, r = (0, 3)) ∧
    (∀ i c : Nat, i < 3 → c < 2 →
      componentOffset ⟨0, 2, 12, 0⟩ i c = 4 * (3 * i + c) ∧
      componentOffset ⟨0, 2, 12, 0⟩ i c + 4 ≤ 36 ∧
      readFloat 36 triangleVertices (componentOffset ⟨0, 2, 12, 0⟩ i c) =
        triangleVertices[3 * i + c]? ∧
      ∀ j : Nat, componentOffset ⟨0, 2, 12, 0⟩ i c + 4 ≤ 4 * (3 * j + 2) ∨
        4 * (3 * j + 2) + 4 ≤ componentOffset ⟨0, 2, 12, 0⟩ i c) ∧
    fetchDraw 36 triangleVertices ⟨0, 2, 12, 0⟩ (0, 3) =
      [[some (-1/2), some (-1/2)], [some (1/2), some (-1/2)], [some 0, some (1/2)]] := by
  obtain ⟨hu, hl, hd⟩ := uploads_trace env hok
  refine ⟨hu, hl, hd, ?_, ?_⟩
  · intro i c hi hc
    have hoff : componentOffset ⟨0, 2, 12, 0⟩ i c = 4 * (3 * i + c) := by
      simp only [componentOffset, sizeofFloat]; omega
    rw [hoff]
    refine ⟨rfl, by omega, ?_, fun j => by omega⟩
    unfold readFloat
    simp only [sizeofFloat]
    rw [if_pos ⟨by omega, by omega⟩]
    congr 1
    omega
  · simp [fetchDraw, fetchVertex, readFloat, componentOffset, sizeofFloat, triangleVertices,
      List.range_succ]

/-- Witness of C10: the sample environment with one frame drawn before the
quit key. -/
theorem vertex_fetch_witness :
    AllStepsSucceed (sampleEnv [quitFrame]) ∧
    uploads (main (sampleEnv [quitFrame])).trace =
      [(36, [(-1/2 : Rat), -1/2, 0, 1/2, -1/2, 0, 0, 1/2, 0])] ∧
    attribLayouts (main (sampleEnv [quitFrame])).trace = [⟨0, 2, 12, 0⟩] ∧
    drawRanges (main (sampleEnv [quitFrame])).trace = [(0, 3)] :=
  have h := vertex_fetch (sampleEnv [quitFrame]) (by decide)
  ⟨by decide, h.1, h.2.1, by
    rw [main_trace_of_loop_ends (sampleEnv [quitFrame]) (by decide) (by decide)]
    simp [drawRanges, setupCalls, windowCalls, contextCalls, guiCalls, vertexShaderCalls,
      fragmentShaderCalls, programCalls, geometryCalls, sampleEnv, renderLoop, loopBody,
      quitFrame, teardown]⟩

end GlPhotoEditor
